import Mathlib

/-!
Cube hero adapter: `cube.js` and `cube_fixed.js`.

Both files define a `Cube` class that forwards to an external 2D physics
engine.  The engine is not part of the program, so it is embedded as

* a log of the calls the adapter issues (`Call`, `Sys.log`), in order, and
* an oracle (`Engine`) that gives the engine's answers (velocity, position,
  angle, the handle of a created body, whether `DestroyBody` throws) as a
  function of the calls issued so far.

JavaScript numbers are embedded as exact rationals (the finite values);
`undefined` option fields are `none`.  Objects allocated with `new` carry the
identifier taken from `Sys.nextId` at the time of the allocation.  A method
returns a `Result`: whether it returned or threw, the fields of the cube
afterwards and the binding state afterwards.  The global helpers
`createDynamicBody` and `addBoxFixture` of cube.js are defined outside these
two files; a call to one of them is recorded in the log like a call to the
engine.
-/

set_option autoImplicit false

namespace Box2D

/-- Handle of a physics body owned by the engine. -/
structure Body where
  id : Nat
deriving DecidableEq

/-- Handle of the physics world. -/
structure World where
  id : Nat
deriving DecidableEq

/-- Plain pair of coordinates: an object literal with fields x and y, or the
value of a vector the engine hands out. -/
structure Point where
  x : ℚ
  y : ℚ
deriving DecidableEq

/-- Vector object allocated by the adapter with new b2Vec2(x, y). -/
structure Vec2 where
  id : Nat
  x : ℚ
  y : ℚ
deriving DecidableEq

/-- Coordinates held by a vector object. -/
def Vec2.val (v : Vec2) : Point := ⟨v.x, v.y⟩

/-- Options literal passed to the global helper createDynamicBody (cube.js). -/
structure BodyOptions where
  angularDamping : ℚ
  linearDamping : ℚ
deriving DecidableEq

/-- Options literal passed to the global helper addBoxFixture (cube.js). -/
structure FixtureOptions where
  density : ℚ
  friction : ℚ
  restitution : ℚ
deriving DecidableEq

/-- Body types of the binding (b2_staticBody, b2_kinematicBody, b2_dynamicBody). -/
inductive BodyType where
  | staticBody
  | kinematicBody
  | dynamicBody
deriving DecidableEq

/-- Body definition as built by the set_* calls of worldInstance.add.
A damping that was never set is none (the engine keeps its own default). -/
structure BodyDef where
  id : Nat
  type : BodyType
  position : Point
  angle : ℚ
  allowSleep : Bool
  awake : Bool
  bullet : Bool
  fixedRotation : Bool
  angularDamping : Option ℚ
  linearDamping : Option ℚ
deriving DecidableEq

/-- Geometry held by a shape object. -/
inductive Geometry where
  | polygon (vertices : List Point)
  | box (halfWidth halfHeight : ℚ)
  | circle (radius : ℚ)
deriving DecidableEq

/-- Shape object allocated by createShapeCube. -/
structure Shape where
  id : Nat
  geometry : Geometry
deriving DecidableEq

/-- Fixture definition as built by the set_* calls of worldInstance.add.
The collision-filter group index is none when it was never set. -/
structure FixtureDef where
  id : Nat
  density : ℚ
  friction : ℚ
  restitution : ℚ
  isSensor : Bool
  groupIndex : Option Int
  shape : Shape
deriving DecidableEq

/-- Calls the adapter issues against the physics binding, the world and the body. -/
inductive Call where
  | createDynamicBody (world : World) (x y : ℚ) (options : BodyOptions)
  | addBoxFixture (body : Body) (halfWidth halfHeight : ℚ) (options : FixtureOptions)
  | newVec2 (v : Vec2)
  | newBodyDef (id : Nat)
  | newFixtureDef (id : Nat)
  | newPolygonShape (id : Nat)
  | newCircleShape (id : Nat)
  | destroy (id : Nat)
  | createBody (world : World) (bd : BodyDef)
  | createFixture (body : Body) (fd : FixtureDef)
  | getLinearVelocity (body : Body)
  | getPosition (body : Body)
  | getAngle (body : Body)
  | applyForceToCenter (body : Body) (force : Vec2) (wake : Bool)
  | applyTorque (body : Body) (torque : ℚ) (wake : Bool)
  | applyLinearImpulseToCenter (body : Body) (impulse : Vec2) (wake : Bool)
  | setTransform (body : Body) (position : Vec2) (angle : ℚ)
  | setLinearVelocity (body : Body) (v : Vec2)
  | setAngularVelocity (body : Body) (omega : ℚ)
  | destroyBody (world : World) (body : Body)
deriving DecidableEq

/-- The external physics engine and binding.  Every answer may depend on the
calls issued before the one that is answered. -/
structure Engine where
  /-- the binding has a destroy function (b2.destroy is truthy) -/
  hasDestroy : Bool
  /-- answer of body.GetLinearVelocity() -/
  linearVelocity : List Call → Body → Point
  /-- answer of body.GetPosition() -/
  position : List Call → Body → Point
  /-- answer of body.GetAngle() -/
  angle : List Call → Body → ℚ
  /-- handle returned by a body-creation request (the last call of the history) -/
  createdBody : List Call → Body
  /-- world.DestroyBody(body) throws -/
  destroyBodyThrows : List Call → World → Body → Bool

/-- State of the binding seen from the adapter: the next free object
identifier and the calls issued so far, oldest first. -/
structure Sys where
  nextId : Nat
  log : List Call
deriving DecidableEq

/-- Record one call. -/
def Sys.call (s : Sys) (c : Call) : Sys :=
  { s with log := s.log ++ [c] }

/-- Evaluate new b2Vec2(x, y). -/
def Sys.newVec2 (s : Sys) (x y : ℚ) : Vec2 × Sys :=
  let v : Vec2 := ⟨s.nextId, x, y⟩
  (v, { nextId := s.nextId + 1, log := s.log ++ [Call.newVec2 v] })

/-- Evaluate the guarded release: if (b2.destroy) b2.destroy(obj). -/
def Sys.release (s : Sys) (E : Engine) (id : Nat) : Sys :=
  if E.hasDestroy then s.call (Call.destroy id) else s

/-- Errors a method can raise. -/
inductive JSError where
  /-- property access or method call on null or undefined -/
  | typeError
  /-- error thrown by the engine -/
  | engineError
deriving DecidableEq

/-- How a method call ended: it returned a value or it threw. -/
inductive Outcome (α : Type) where
  | returned (value : α)
  | threw (error : JSError)
deriving DecidableEq

/-- Result of running a method of an object of type κ: how it ended, the
fields of the object afterwards, and the binding state afterwards. -/
structure Result (κ α : Type) where
  outcome : Outcome α
  cube : κ
  sys : Sys

/-- The input record read by update. -/
structure Input where
  left : Bool
  right : Bool
  up : Bool
  space : Bool
  shift : Bool
deriving DecidableEq

/-- Shared configuration constants (the CUBE object, identical in both files). -/
structure Config where
  size : ℚ
  density : ℚ
  friction : ℚ
  restitution : ℚ
  moveForce : ℚ
  jumpImpulse : ℚ
  rotateSpeed : ℚ
  maxSpeed : ℚ
deriving DecidableEq

/-- The CUBE configuration object. -/
def CUBE : Config :=
  { size := 0.5
    density := 2.0
    friction := 0.8
    restitution := 0.1
    moveForce := 25
    jumpImpulse := 12
    rotateSpeed := 8
    maxSpeed := 15 }

end Box2D

open Box2D

/-! ## cube.js -/

namespace CubeJS

/-- Fields of the Cube class of cube.js. -/
structure Cube where
  body : Option Body
  world : Option World
  spawnX : ℚ
  spawnY : ℚ
  alive : Bool
  grounded : Bool
deriving DecidableEq

/-- The constructor of cube.js. -/
def Cube.new : Cube :=
  { body := none, world := none, spawnX := 0, spawnY := 0, alive := true, grounded := false }

/-- Cube.spawn(world, x, y) of cube.js. -/
def Cube.spawn (c : Cube) (world : World) (x y : ℚ) (E : Engine) (s : Sys) : Result Cube Unit :=
  let c := { c with world := some world, spawnX := x, spawnY := y, alive := true }
  -- Create body
  let s := s.call (Call.createDynamicBody world x y { angularDamping := 0.5, linearDamping := 0.1 })
  let body := E.createdBody s.log
  let c := { c with body := some body }
  -- Add box fixture
  let s := s.call (Call.addBoxFixture body CUBE.size CUBE.size
    { density := CUBE.density, friction := CUBE.friction, restitution := CUBE.restitution })
  ⟨Outcome.returned (), c, s⟩

/-- Cube.update(input) of cube.js. -/
def Cube.update (c : Cube) (input : Input) (E : Engine) (s : Sys) : Result Cube Unit :=
  match c.alive, c.body with
  | true, some body =>
    let vel := E.linearVelocity s.log body
    let s := s.call (Call.getLinearVelocity body)
    let vx := vel.x
    -- Move left/right
    let s :=
      if input.left && !input.shift then
        if vx > -CUBE.maxSpeed then
          let (force, s) := s.newVec2 (-CUBE.moveForce) 0
          s.call (Call.applyForceToCenter body force true)
        else s
      else s
    let s :=
      if input.right && !input.shift then
        if vx < CUBE.maxSpeed then
          let (force, s) := s.newVec2 CUBE.moveForce 0
          s.call (Call.applyForceToCenter body force true)
        else s
      else s
    -- Rotate (with shift held)
    let s := if input.left && input.shift then s.call (Call.applyTorque body CUBE.rotateSpeed true) else s
    let s := if input.right && input.shift then s.call (Call.applyTorque body (-CUBE.rotateSpeed) true) else s
    -- Jump
    let s :=
      if input.up || input.space then
        let vy := vel.y
        if |vy| < 0.5 then
          let (impulse, s) := s.newVec2 0 CUBE.jumpImpulse
          s.call (Call.applyLinearImpulseToCenter body impulse true)
        else s
      else s
    ⟨Outcome.returned (), c, s⟩
  | _, _ => ⟨Outcome.returned (), c, s⟩

/-- Cube.getPosition() of cube.js. -/
def Cube.getPosition (c : Cube) (E : Engine) (s : Sys) : Result Cube Point :=
  match c.body with
  | none => ⟨Outcome.returned ⟨c.spawnX, c.spawnY⟩, c, s⟩
  | some body =>
    let pos := E.position s.log body
    let s := s.call (Call.getPosition body)
    ⟨Outcome.returned ⟨pos.x, pos.y⟩, c, s⟩

/-- Cube.getAngle() of cube.js. -/
def Cube.getAngle (c : Cube) (E : Engine) (s : Sys) : Result Cube ℚ :=
  match c.body with
  | none => ⟨Outcome.returned 0, c, s⟩
  | some body =>
    let a := E.angle s.log body
    ⟨Outcome.returned a, c, s.call (Call.getAngle body)⟩

/-- Cube.teleport(x, y) of cube.js. -/
def Cube.teleport (c : Cube) (x y : ℚ) (E : Engine) (s : Sys) : Result Cube Unit :=
  match c.body with
  | none => ⟨Outcome.returned (), c, s⟩
  | some body =>
    let (pos, s) := s.newVec2 x y
    let a := E.angle s.log body
    let s := s.call (Call.getAngle body)
    let s := s.call (Call.setTransform body pos a)
    let (zero, s) := s.newVec2 0 0
    let s := s.call (Call.setLinearVelocity body zero)
    let s := s.call (Call.setAngularVelocity body 0)
    ⟨Outcome.returned (), c, s⟩

/-- The statement try { this.world.DestroyBody(this.body) } catch (e) {} :
the call is issued, and an error it throws is discarded. -/
def tryDestroyBody (world : World) (body : Body) (E : Engine) (s : Sys) : Outcome Unit × Sys :=
  let attempt : Outcome Unit :=
    if E.destroyBodyThrows s.log world body then Outcome.threw JSError.engineError
    else Outcome.returned ()
  let s := s.call (Call.destroyBody world body)
  match attempt with
  | Outcome.returned _ => (Outcome.returned (), s)
  | Outcome.threw _ => (Outcome.returned (), s)

/-- Cube.destroy() of cube.js. -/
def Cube.destroy (c : Cube) (E : Engine) (s : Sys) : Result Cube Unit :=
  let step : Outcome Unit × Sys :=
    match c.body, c.world with
    | some body, some world => tryDestroyBody world body E s
    | _, _ => (Outcome.returned (), s)
  match step.1 with
  | Outcome.threw e => ⟨Outcome.threw e, c, step.2⟩
  | Outcome.returned _ =>
    ⟨Outcome.returned (), { c with body := none, alive := false }, step.2⟩

/-- Cube.getBody() of cube.js. -/
def Cube.getBody (c : Cube) : Option Body := c.body

end CubeJS

/-! ## cube_fixed.js -/

namespace CubeFixed

/-- JavaScript v || d for an optional number: undefined and 0 are falsy. -/
def numOr (v : Option ℚ) (d : ℚ) : ℚ :=
  match v with
  | some q => if q = 0 then d else q
  | none => d

/-- JavaScript v || false for an optional boolean. -/
def boolOr (v : Option Bool) : Bool :=
  match v with
  | some b => b
  | none => false

/-- JavaScript v || d for an optional string: undefined and the empty string are falsy. -/
def strOr (v : Option String) (d : String) : String :=
  match v with
  | some t => if t = "" then d else t
  | none => d

/-- JavaScript v !== undefined ? v : true for an optional boolean. -/
def definedOrTrue (v : Option Bool) : Bool :=
  match v with
  | some b => b
  | none => true

/-- The plain options object read by worldInstance.add and createShapeCube.
A field that is absent (undefined) is none.  The flat vertices array
[x0, y0, x1, y1, ...] is held as the list of its (x, y) pairs. -/
structure AddOptions where
  type : Option String := none
  x : Option ℚ := none
  y : Option ℚ := none
  angle : Option ℚ := none
  allowSleep : Option Bool := none
  awake : Option Bool := none
  bullet : Option Bool := none
  fixedRotation : Option Bool := none
  angularDamping : Option ℚ := none
  linearDamping : Option ℚ := none
  density : Option ℚ := none
  friction : Option ℚ := none
  restitution : Option ℚ := none
  isSensor : Option Bool := none
  groupIndex : Option Int := none
  shape : Option String := none
  vertices : Option (List Point) := none
  mx : Option ℚ := none
  my : Option ℚ := none
  w : Option ℚ := none
  h : Option ℚ := none
  radius : Option ℚ := none
deriving DecidableEq

/-- Allocate an object with new, recording the call built from its identifier. -/
def alloc (s : Sys) (mk : Nat → Call) : Nat × Sys :=
  (s.nextId, { nextId := s.nextId + 1, log := s.log ++ [mk s.nextId] })

/-- The loop of the polygon case that allocates one vector per vertex pair. -/
def pushVertices (dx dy : ℚ) : List Point → List Vec2 → Sys → List Vec2 × Sys
  | [], vecs, s => (vecs, s)
  | p :: rest, vecs, s =>
    let (v, s) := s.newVec2 (p.x + dx) (p.y + dy)
    pushVertices dx dy rest (vecs ++ [v]) s

/-- The cleanup loop of the polygon case. -/
def destroyAll : List Vec2 → Sys → Sys
  | [], s => s
  | v :: rest, s => destroyAll rest (s.call (Call.destroy v.id))

/-- The helper worldInstance.createShapeCube(obj). -/
def createShapeCube (obj : AddOptions) (E : Engine) (s : Sys) : Outcome Shape × Sys :=
  let shapeName := strOr obj.shape "box"
  if shapeName = "polygon" then
    let (id, s) := alloc s Call.newPolygonShape
    match obj.vertices with
    | none => (Outcome.threw JSError.typeError, s)
    | some vertices =>
      let dx := numOr obj.mx 0
      let dy := numOr obj.my 0
      let (vecs, s) := pushVertices dx dy vertices [] s
      -- Cleanup
      let s := if E.hasDestroy then destroyAll vecs s else s
      (Outcome.returned ⟨id, Geometry.polygon (vecs.map Vec2.val)⟩, s)
  else if shapeName = "box" then
    let (id, s) := alloc s Call.newPolygonShape
    (Outcome.returned ⟨id, Geometry.box (numOr obj.w 1 * 0.5) (numOr obj.h 1 * 0.5)⟩, s)
  else if shapeName = "circle" then
    let (id, s) := alloc s Call.newCircleShape
    (Outcome.returned ⟨id, Geometry.circle (numOr obj.radius 1)⟩, s)
  else
    let (id, s) := alloc s Call.newPolygonShape
    (Outcome.returned ⟨id, Geometry.box 0.5 0.5⟩, s)

/-- The switch on the type name in worldInstance.add. -/
def bodyTypeOf (type : String) : BodyType :=
  if type = "dynamic" then BodyType.dynamicBody
  else if type = "static" then BodyType.staticBody
  else if type = "kinematic" then BodyType.kinematicBody
  else BodyType.dynamicBody

/-- The helper worldInstance.add(obj), installed on the world by extendWorld. -/
def worldAdd (world : World) (arg : Option AddOptions) (E : Engine) (s : Sys) : Outcome Body × Sys :=
  let obj : AddOptions := arg.getD {}
  -- Create BodyDef
  let (bdId, s) := alloc s Call.newBodyDef
  let type := strOr obj.type "dynamic"
  let (pos, s) := s.newVec2 (numOr obj.x 0) (numOr obj.y 0)
  let bd : BodyDef :=
    { id := bdId
      type := bodyTypeOf type
      position := pos.val
      angle := numOr obj.angle 0
      allowSleep := definedOrTrue obj.allowSleep
      awake := definedOrTrue obj.awake
      bullet := boolOr obj.bullet
      fixedRotation := boolOr obj.fixedRotation
      angularDamping := obj.angularDamping
      linearDamping := obj.linearDamping }
  -- Create body
  let s := s.call (Call.createBody world bd)
  let body := E.createdBody s.log
  -- Create fixture
  let (fdId, s) := alloc s Call.newFixtureDef
  -- Create shape
  match createShapeCube obj E s with
  | (Outcome.threw e, s) => (Outcome.threw e, s)
  | (Outcome.returned shape, s) =>
    let fd : FixtureDef :=
      { id := fdId
        density := numOr obj.density 0
        friction := numOr obj.friction 0.2
        restitution := numOr obj.restitution 0.1
        isSensor := boolOr obj.isSensor
        groupIndex := obj.groupIndex
        shape := shape }
    let s := s.call (Call.createFixture body fd)
    -- Cleanup WASM memory
    let s := if E.hasDestroy then (s.call (Call.destroy pos.id)).call (Call.destroy shape.id) else s
    (Outcome.returned body, s)

/-- Fields of the Cube objects of cube_fixed.js. -/
structure Cube where
  world : Option World
  mirror : Int
  body : Option Body
  spawnX : ℚ
  spawnY : ℚ
  isDead : Bool
  isDestroy : Bool
  position : Point
  startPos : Point
deriving DecidableEq

/-- The constructor Cube(world, mirror) of cube_fixed.js; extendWorld installs
worldAdd and createShapeCube on the world. -/
def Cube.new (world : World) (mirror : Bool) : Cube :=
  { world := some world
    mirror := if mirror then -1 else 1
    body := none
    spawnX := 0
    spawnY := 0
    isDead := false
    isDestroy := true
    position := ⟨0, 0⟩
    startPos := ⟨0, 0⟩ }

/-- Cube.prototype.init of cube_fixed.js. -/
def Cube.init (c : Cube) (E : Engine) (s : Sys) : Result Cube Unit :=
  let pos := c.startPos
  match c.world with
  | none => ⟨Outcome.threw JSError.typeError, c, s⟩
  | some world =>
    -- Create cube body using world.add helper
    match worldAdd world (some
        { shape := some "box"
          x := some pos.x
          y := some pos.y
          w := some (CUBE.size * 2)
          h := some (CUBE.size * 2)
          density := some CUBE.density
          friction := some CUBE.friction
          restitution := some CUBE.restitution
          angularDamping := some 0.5
          linearDamping := some 0.1
          allowSleep := some false }) E s with
    | (Outcome.threw e, s) => ⟨Outcome.threw e, c, s⟩
    | (Outcome.returned body, s) =>
      ⟨Outcome.returned (), { c with body := some body, isDead := false, isDestroy := false }, s⟩

/-- Cube.prototype.spawn(x, y) of cube_fixed.js. -/
def Cube.spawn (c : Cube) (x y : ℚ) (E : Engine) (s : Sys) : Result Cube Unit :=
  let c := { c with startPos := ⟨x, y⟩, spawnX := x, spawnY := y }
  c.init E s

/-- Cube.prototype.getPosition of cube_fixed.js. -/
def Cube.getPosition (c : Cube) (E : Engine) (s : Sys) : Result Cube Point :=
  match c.body with
  | none => ⟨Outcome.returned ⟨c.spawnX, c.spawnY⟩, c, s⟩
  | some body =>
    let pos := E.position s.log body
    let s := s.call (Call.getPosition body)
    ⟨Outcome.returned ⟨pos.x, pos.y⟩, c, s⟩

/-- Cube.prototype.update(input) of cube_fixed.js. -/
def Cube.update (c : Cube) (input : Input) (E : Engine) (s : Sys) : Result Cube Unit :=
  match c.isDead, c.isDestroy, c.body with
  | false, false, some body =>
    let vel := E.linearVelocity s.log body
    let s := s.call (Call.getLinearVelocity body)
    let vx := vel.x
    -- Move left/right
    let s :=
      if input.left && !input.shift then
        if vx > -CUBE.maxSpeed then
          let (forceL, s) := s.newVec2 (-CUBE.moveForce) 0
          let s := s.call (Call.applyForceToCenter body forceL true)
          s.release E forceL.id
        else s
      else s
    let s :=
      if input.right && !input.shift then
        if vx < CUBE.maxSpeed then
          let (forceR, s) := s.newVec2 CUBE.moveForce 0
          let s := s.call (Call.applyForceToCenter body forceR true)
          s.release E forceR.id
        else s
      else s
    -- Rotate (with shift held)
    let s := if input.left && input.shift then s.call (Call.applyTorque body CUBE.rotateSpeed true) else s
    let s := if input.right && input.shift then s.call (Call.applyTorque body (-CUBE.rotateSpeed) true) else s
    -- Jump
    let s :=
      if input.up || input.space then
        let vy := vel.y
        if |vy| < 0.5 then
          let (impulse, s) := s.newVec2 0 CUBE.jumpImpulse
          let s := s.call (Call.applyLinearImpulseToCenter body impulse true)
          s.release E impulse.id
        else s
      else s
    -- Update position
    let r := c.getPosition E s
    match r.outcome with
    | Outcome.threw e => ⟨Outcome.threw e, c, r.sys⟩
    | Outcome.returned p => ⟨Outcome.returned (), { c with position := p }, r.sys⟩
  | _, _, _ => ⟨Outcome.returned (), c, s⟩

/-- Cube.prototype.getAngle of cube_fixed.js. -/
def Cube.getAngle (c : Cube) (E : Engine) (s : Sys) : Result Cube ℚ :=
  match c.body with
  | none => ⟨Outcome.returned 0, c, s⟩
  | some body =>
    let a := E.angle s.log body
    ⟨Outcome.returned a, c, s.call (Call.getAngle body)⟩

/-- Cube.prototype.teleport(x, y) of cube_fixed.js. -/
def Cube.teleport (c : Cube) (x y : ℚ) (E : Engine) (s : Sys) : Result Cube Unit :=
  match c.body with
  | none => ⟨Outcome.returned (), c, s⟩
  | some body =>
    let (pos, s) := s.newVec2 x y
    let a := E.angle s.log body
    let s := s.call (Call.getAngle body)
    let s := s.call (Call.setTransform body pos a)
    let (zero, s) := s.newVec2 0 0
    let s := s.call (Call.setLinearVelocity body zero)
    let s := s.call (Call.setAngularVelocity body 0)
    let s := if E.hasDestroy then (s.call (Call.destroy pos.id)).call (Call.destroy zero.id) else s
    ⟨Outcome.returned (), c, s⟩

/-- Cube.prototype.flip of cube_fixed.js. -/
def Cube.flip (c : Cube) : Cube := { c with mirror := c.mirror * -1 }

/-- Cube.prototype.eject of cube_fixed.js. -/
def Cube.eject (c : Cube) (E : Engine) (s : Sys) : Result Cube Unit :=
  match c.body, c.isDead with
  | some body, false =>
    let (impulse, s) := s.newVec2 0 (CUBE.jumpImpulse * 2)
    let s := s.call (Call.applyLinearImpulseToCenter body impulse true)
    ⟨Outcome.returned (), c, s.release E impulse.id⟩
  | _, _ => ⟨Outcome.returned (), c, s⟩

/-- Cube.prototype.kill of cube_fixed.js. -/
def Cube.kill (c : Cube) : Cube := { c with isDead := true }

/-- The statement try { this.world.DestroyBody(this.body) } catch (e) {} :
the call is issued, and an error it throws is discarded. -/
def tryDestroyBody (world : World) (body : Body) (E : Engine) (s : Sys) : Outcome Unit × Sys :=
  let attempt : Outcome Unit :=
    if E.destroyBodyThrows s.log world body then Outcome.threw JSError.engineError
    else Outcome.returned ()
  let s := s.call (Call.destroyBody world body)
  match attempt with
  | Outcome.returned _ => (Outcome.returned (), s)
  | Outcome.threw _ => (Outcome.returned (), s)

/-- Cube.prototype.destroy of cube_fixed.js. -/
def Cube.destroy (c : Cube) (E : Engine) (s : Sys) : Result Cube Unit :=
  let step : Outcome Unit × Sys :=
    match c.body, c.world with
    | some body, some world => tryDestroyBody world body E s
    | _, _ => (Outcome.returned (), s)
  match step.1 with
  | Outcome.threw e => ⟨Outcome.threw e, c, step.2⟩
  | Outcome.returned _ =>
    ⟨Outcome.returned (), { c with body := none, isDead := true, isDestroy := true }, step.2⟩

/-- Cube.prototype.getBody of cube_fixed.js. -/
def Cube.getBody (c : Cube) : Option Body := c.body

end CubeFixed

/-! ## Reading the call log -/

namespace Box2D

/-- The calls issued between two binding states, oldest first. -/
def issued (before after : Sys) : List Call :=
  after.log.drop before.log.length

/-- An application of a force, torque or impulse to a body, with the
coordinates of the vector passed instead of the vector object. -/
inductive Applied where
  | force (body : Body) (v : Point) (wake : Bool)
  | torque (body : Body) (torque : ℚ) (wake : Bool)
  | impulse (body : Body) (v : Point) (wake : Bool)
deriving DecidableEq

/-- The ApplyForceToCenter, ApplyTorque and ApplyLinearImpulseToCenter calls of
a log, in order. -/
def applied : List Call → List Applied
  | [] => []
  | Call.applyForceToCenter body force wake :: rest => Applied.force body force.val wake :: applied rest
  | Call.applyTorque body torque wake :: rest => Applied.torque body torque wake :: applied rest
  | Call.applyLinearImpulseToCenter body impulse wake :: rest =>
      Applied.impulse body impulse.val wake :: applied rest
  | _ :: rest => applied rest

/-- The forces applied to the centre of a body, in order. -/
def forces (log : List Call) : List (Body × Point) :=
  (applied log).filterMap fun a =>
    match a with
    | Applied.force body v _ => some (body, v)
    | _ => none

/-- The torques applied to a body, in order. -/
def torques (log : List Call) : List (Body × ℚ) :=
  (applied log).filterMap fun a =>
    match a with
    | Applied.torque body torque _ => some (body, torque)
    | _ => none

/-- The linear impulses applied to the centre of a body, in order. -/
def impulses (log : List Call) : List (Body × Point) :=
  (applied log).filterMap fun a =>
    match a with
    | Applied.impulse body v _ => some (body, v)
    | _ => none

/-- The vector objects allocated in a log, in order. -/
def allocatedVecs : List Call → List Vec2
  | [] => []
  | Call.newVec2 v :: rest => v :: allocatedVecs rest
  | _ :: rest => allocatedVecs rest

/-- The identifiers of the objects released in a log, in order. -/
def released : List Call → List Nat
  | [] => []
  | Call.destroy id :: rest => id :: released rest
  | _ :: rest => released rest

/-- Some call of the log passes the object with this identifier to a body as
an argument. -/
def passedIn (id : Nat) : List Call → Bool
  | [] => false
  | Call.applyForceToCenter _ v _ :: rest => v.id == id || passedIn id rest
  | Call.applyLinearImpulseToCenter _ v _ :: rest => v.id == id || passedIn id rest
  | Call.setTransform _ v _ :: rest => v.id == id || passedIn id rest
  | Call.setLinearVelocity _ v :: rest => v.id == id || passedIn id rest
  | _ :: rest => passedIn id rest

/-- The calls of a log before the first release of the object. -/
def beforeRelease (id : Nat) : List Call → List Call
  | [] => []
  | Call.destroy j :: rest => if j = id then [] else Call.destroy j :: beforeRelease id rest
  | c :: rest => c :: beforeRelease id rest

/-- The calls of a log from the first release of the object on. -/
def fromRelease (id : Nat) : List Call → List Call
  | [] => []
  | Call.destroy j :: rest => if j = id then Call.destroy j :: rest else fromRelease id rest
  | _ :: rest => fromRelease id rest

/-- The object is released exactly once in the log, it was passed to a call
before its release, and it is passed to no call from its release on. -/
def releasedOnceAfterUse (log : List Call) (id : Nat) : Prop :=
  (released log).count id = 1
    ∧ passedIn id (beforeRelease id log) = true
    ∧ passedIn id (fromRelease id log) = false

instance (log : List Call) (id : Nat) : Decidable (releasedOnceAfterUse log id) := by
  unfold releasedOnceAfterUse
  infer_instance

/-- The body definitions passed to CreateBody in a log, in order. -/
def bodyDefs : List Call → List (World × BodyDef)
  | [] => []
  | Call.createBody world bd :: rest => (world, bd) :: bodyDefs rest
  | _ :: rest => bodyDefs rest

/-- The fixture definitions passed to CreateFixture in a log, in order. -/
def fixtureDefs : List Call → List (Body × FixtureDef)
  | [] => []
  | Call.createFixture body fd :: rest => (body, fd) :: fixtureDefs rest
  | _ :: rest => fixtureDefs rest

/-- A log without its release calls and its GetPosition calls. -/
def withoutReleaseAndGetPosition : List Call → List Call
  | [] => []
  | Call.destroy _ :: rest => withoutReleaseAndGetPosition rest
  | Call.getPosition _ :: rest => withoutReleaseAndGetPosition rest
  | c :: rest => c :: withoutReleaseAndGetPosition rest

/-- An engine whose answers do not depend on the history. -/
def Engine.fixedAnswers (hasDestroy : Bool) (velocity position : Point) (angle : ℚ)
    (body : Body) (throws : Bool) : Engine :=
  { hasDestroy := hasDestroy
    linearVelocity := fun _ _ => velocity
    position := fun _ _ => position
    angle := fun _ _ => angle
    createdBody := fun _ => body
    destroyBodyThrows := fun _ _ _ => throws }

/-- An engine at rest at the origin, with a destroy function, whose
DestroyBody throws. -/
def Engine.atRest : Engine :=
  Engine.fixedAnswers true ⟨0, 0⟩ ⟨0, 0⟩ 0 ⟨1⟩ true

/-- The empty binding state. -/
def Sys.start : Sys := ⟨0, []⟩

end Box2D

/-- A live cube of cube.js holding body 1 in world 0. -/
def CubeJS.Cube.live : CubeJS.Cube :=
  { CubeJS.Cube.new with body := some ⟨1⟩, world := some ⟨0⟩ }

/-- A live cube of cube_fixed.js holding body 1 in world 0. -/
def CubeFixed.Cube.live : CubeFixed.Cube :=
  { CubeFixed.Cube.new ⟨0⟩ false with body := some ⟨1⟩, isDestroy := false }

/-- A method call on a cube of cube.js. -/
inductive CubeJS.Op where
  | spawn (world : World) (x y : ℚ)
  | update (input : Input)
  | teleport (x y : ℚ)
  | getPosition
  | getAngle
  | destroy
deriving DecidableEq

/-- One method call on a cube of cube.js: the cube and the binding state it leaves. -/
def CubeJS.Cube.step (c : CubeJS.Cube) (E : Engine) (s : Sys) : CubeJS.Op → CubeJS.Cube × Sys
  | CubeJS.Op.spawn world x y => ((c.spawn world x y E s).cube, (c.spawn world x y E s).sys)
  | CubeJS.Op.update input => ((c.update input E s).cube, (c.update input E s).sys)
  | CubeJS.Op.teleport x y => ((c.teleport x y E s).cube, (c.teleport x y E s).sys)
  | CubeJS.Op.getPosition => ((c.getPosition E s).cube, (c.getPosition E s).sys)
  | CubeJS.Op.getAngle => ((c.getAngle E s).cube, (c.getAngle E s).sys)
  | CubeJS.Op.destroy => ((c.destroy E s).cube, (c.destroy E s).sys)

/-- A sequence of method calls on a cube of cube.js, first call first. -/
def CubeJS.Cube.run (c : CubeJS.Cube) (E : Engine) (s : Sys) : List CubeJS.Op → CubeJS.Cube × Sys
  | [] => (c, s)
  | op :: ops => CubeJS.Cube.run (c.step E s op).1 E (c.step E s op).2 ops

/-- The coordinates given to the most recent spawn of a sequence of calls on a
cube of cube.js, or the given point when the sequence has no spawn. -/
def CubeJS.lastSpawn (p : Point) : List CubeJS.Op → Point
  | [] => p
  | CubeJS.Op.spawn _ x y :: ops => CubeJS.lastSpawn ⟨x, y⟩ ops
  | _ :: ops => CubeJS.lastSpawn p ops

/-- A method call on a cube of cube_fixed.js. -/
inductive CubeFixed.Op where
  | spawn (x y : ℚ)
  | update (input : Input)
  | teleport (x y : ℚ)
  | getPosition
  | getAngle
  | flip
  | eject
  | kill
  | destroy
deriving DecidableEq

/-- One method call on a cube of cube_fixed.js: the cube and the binding state
it leaves (an error the call throws is left to the caller). -/
def CubeFixed.Cube.step (c : CubeFixed.Cube) (E : Engine) (s : Sys) :
    CubeFixed.Op → CubeFixed.Cube × Sys
  | CubeFixed.Op.spawn x y => ((c.spawn x y E s).cube, (c.spawn x y E s).sys)
  | CubeFixed.Op.update input => ((c.update input E s).cube, (c.update input E s).sys)
  | CubeFixed.Op.teleport x y => ((c.teleport x y E s).cube, (c.teleport x y E s).sys)
  | CubeFixed.Op.getPosition => ((c.getPosition E s).cube, (c.getPosition E s).sys)
  | CubeFixed.Op.getAngle => ((c.getAngle E s).cube, (c.getAngle E s).sys)
  | CubeFixed.Op.flip => (c.flip, s)
  | CubeFixed.Op.eject => ((c.eject E s).cube, (c.eject E s).sys)
  | CubeFixed.Op.kill => (c.kill, s)
  | CubeFixed.Op.destroy => ((c.destroy E s).cube, (c.destroy E s).sys)

/-- A sequence of method calls on a cube of cube_fixed.js, first call first. -/
def CubeFixed.Cube.run (c : CubeFixed.Cube) (E : Engine) (s : Sys) :
    List CubeFixed.Op → CubeFixed.Cube × Sys
  | [] => (c, s)
  | op :: ops => CubeFixed.Cube.run (c.step E s op).1 E (c.step E s op).2 ops

/-- The coordinates given to the most recent spawn of a sequence of calls on a
cube of cube_fixed.js, or the given point when the sequence has no spawn. -/
def CubeFixed.lastSpawn (p : Point) : List CubeFixed.Op → Point
  | [] => p
  | CubeFixed.Op.spawn x y :: ops => CubeFixed.lastSpawn ⟨x, y⟩ ops
  | _ :: ops => CubeFixed.lastSpawn p ops

/-- The applications update is to issue for an input on body b moving at (vx, vy):
left force, right force, left torque, right torque, jump impulse. -/
def expectedApplications (input : Input) (vx vy : ℚ) (b : Body) : List Applied :=
  (if input.left = true ∧ input.shift = false ∧ vx > -15 then [Applied.force b ⟨-25, 0⟩ true] else [])
  ++ (if input.right = true ∧ input.shift = false ∧ vx < 15 then [Applied.force b ⟨25, 0⟩ true] else [])
  ++ (if input.left = true ∧ input.shift = true then [Applied.torque b 8 true] else [])
  ++ (if input.right = true ∧ input.shift = true then [Applied.torque b (-8) true] else [])
  ++ (if (input.up = true ∨ input.space = true) ∧ |vy| < 0.5 then [Applied.impulse b ⟨0, 12⟩ true] else [])

/-! ## Theorems -/

set_option maxHeartbeats 4000000

/-- Applications issued by update of cube.js on a live cube with a body. -/
theorem cubejs_update_applied (input : Input) (vx vy : ℚ) (E : Engine) (s : Sys) (b : Body)
    (c : CubeJS.Cube) (hvel : E.linearVelocity s.log b = ⟨vx, vy⟩)
    (halive : c.alive = true) (hbody : c.body = some b) :
    applied (issued s (c.update input E s).sys) = expectedApplications input vx vy b := by
  rcases input with ⟨l, r, u, sp, sh⟩
  by_cases h1 : -15 < vx <;> by_cases h2 : vx < 15 <;> by_cases h3 : |vy| < 0.5 <;>
    cases l <;> cases r <;> cases u <;> cases sp <;> cases sh <;>
    simp [CubeJS.Cube.update, halive, hbody, expectedApplications,
      hvel, h1, h2, h3, Sys.call, Sys.newVec2, issued, CUBE, applied, Vec2.val]

/-- Applications issued by update of cube_fixed.js on a live cube with a body. -/
theorem cubefixed_update_applied (input : Input) (vx vy : ℚ) (E : Engine) (s : Sys) (b : Body)
    (d : CubeFixed.Cube) (hvel : E.linearVelocity s.log b = ⟨vx, vy⟩)
    (hdead : d.isDead = false) (hdestroy : d.isDestroy = false) (hbody : d.body = some b) :
    applied (issued s (d.update input E s).sys) = expectedApplications input vx vy b := by
  rcases input with ⟨l, r, u, sp, sh⟩
  by_cases h1 : -15 < vx <;> by_cases h2 : vx < 15 <;> by_cases h3 : |vy| < 0.5 <;>
    cases l <;> cases r <;> cases u <;> cases sp <;> cases sh <;> cases hE : E.hasDestroy <;>
    simp [CubeFixed.Cube.update, CubeFixed.Cube.getPosition, hdead, hdestroy, hbody, expectedApplications,
      hvel, h1, h2, h3, hE, Sys.call, Sys.newVec2, Sys.release, issued, CUBE, applied, Vec2.val]

/-- C1: in both variants (cube.js first, cube_fixed.js second, on a cube that
holds a world), spawn issues exactly one body request, for a dynamic body at
(x, y) with angular damping 0.5 and linear damping 0.1, and exactly one fixture
request on the body returned, for a box of half-extents (0.5, 0.5) with density
2, friction 0.8 and restitution 0.1; it records spawnX = x and spawnY = y,
stores the returned body as the handle, leaves the cube marked alive and
returns without an error. -/
theorem spawn_creates_cube_body (x y : ℚ) (world : World) (E : Engine) (s : Sys)
    (c : CubeJS.Cube) (d : CubeFixed.Cube) (hd : d.world = some world) :
    (issued s (c.spawn world x y E s).sys
        = [Call.createDynamicBody world x y { angularDamping := 0.5, linearDamping := 0.1 },
           Call.addBoxFixture
             (E.createdBody (s.log ++ [Call.createDynamicBody world x y
               { angularDamping := 0.5, linearDamping := 0.1 }]))
             0.5 0.5 { density := 2, friction := 0.8, restitution := 0.1 }]
      ∧ (c.spawn world x y E s).cube
          = { c with
              world := some world, spawnX := x, spawnY := y, alive := true
              body := some (E.createdBody (s.log ++ [Call.createDynamicBody world x y
                { angularDamping := 0.5, linearDamping := 0.1 }])) }
      ∧ (c.spawn world x y E s).outcome = Outcome.returned ())
    ∧ (∃ bd fd body,
        bodyDefs (issued s (d.spawn x y E s).sys) = [(world, bd)]
        ∧ bd.type = BodyType.dynamicBody
        ∧ bd.position = ⟨x, y⟩
        ∧ bd.angularDamping = some 0.5
        ∧ bd.linearDamping = some 0.1
        ∧ body = E.createdBody (s.log ++ [Call.newBodyDef s.nextId,
            Call.newVec2 ⟨s.nextId + 1, x, y⟩, Call.createBody world bd])
        ∧ fixtureDefs (issued s (d.spawn x y E s).sys) = [(body, fd)]
        ∧ fd.shape.geometry = Geometry.box 0.5 0.5
        ∧ fd.density = 2
        ∧ fd.friction = 0.8
        ∧ fd.restitution = 0.1
        ∧ (d.spawn x y E s).cube
            = { d with
                startPos := ⟨x, y⟩, spawnX := x, spawnY := y
                body := some body, isDead := false, isDestroy := false }
        ∧ (d.spawn x y E s).outcome = Outcome.returned ()) := by
  refine ⟨?_, ?_⟩
  · simp [CubeJS.Cube.spawn, issued, Sys.call, CUBE]
    norm_num
  · have hx : CubeFixed.numOr (some x) 0 = x := by
      simp only [CubeFixed.numOr]; split_ifs with h <;> simp [h]
    have hy : CubeFixed.numOr (some y) 0 = y := by
      simp only [CubeFixed.numOr]; split_ifs with h <;> simp [h]
    cases hE : E.hasDestroy <;>
      simp [CubeFixed.Cube.spawn, CubeFixed.Cube.init, CubeFixed.worldAdd, CubeFixed.createShapeCube,
        CubeFixed.alloc, CubeFixed.strOr, CubeFixed.bodyTypeOf, CubeFixed.definedOrTrue,
        CubeFixed.boolOr, hd, hE, hx, hy, issued, Sys.call, Sys.newVec2, CUBE, bodyDefs,
        fixtureDefs, Vec2.val] <;>
      norm_num [CubeFixed.numOr]

/-- Witness of C1: spawn at (3, 4) in world 0. -/
theorem spawn_creates_cube_body_witness :
    CubeFixed.Cube.live.world = some ⟨0⟩
    ∧ (CubeJS.Cube.new.spawn ⟨0⟩ 3 4 Engine.atRest Sys.start).cube
        = { CubeJS.Cube.new with
            world := some ⟨0⟩, spawnX := 3, spawnY := 4, alive := true
            body := some (Engine.atRest.createdBody (Sys.start.log ++ [Call.createDynamicBody ⟨0⟩ 3 4
              { angularDamping := 0.5, linearDamping := 0.1 }])) } :=
  ⟨rfl,
    (spawn_creates_cube_body 3 4 ⟨0⟩ Engine.atRest Sys.start CubeJS.Cube.new CubeFixed.Cube.live
      rfl).1.2.1⟩

theorem forces_of_applied (log : List Call) (input : Input) (vx vy : ℚ) (b : Body)
    (h : applied log = expectedApplications input vx vy b) :
    forces log
      = (if input.left = true ∧ input.shift = false ∧ vx > -15 then [(b, ⟨-25, 0⟩)] else [])
        ++ (if input.right = true ∧ input.shift = false ∧ vx < 15 then [(b, ⟨25, 0⟩)] else []) := by
  simp only [forces, h, expectedApplications, List.filterMap_append]
  split_ifs <;> rfl

theorem torques_of_applied (log : List Call) (input : Input) (vx vy : ℚ) (b : Body)
    (h : applied log = expectedApplications input vx vy b) :
    torques log
      = (if input.left = true ∧ input.shift = true then [(b, 8)] else [])
        ++ (if input.right = true ∧ input.shift = true then [(b, -8)] else []) := by
  simp only [torques, h, expectedApplications, List.filterMap_append]
  split_ifs <;> rfl

theorem impulses_of_applied (log : List Call) (input : Input) (vx vy : ℚ) (b : Body)
    (h : applied log = expectedApplications input vx vy b) :
    impulses log
      = if (input.up = true ∨ input.space = true) ∧ |vy| < 0.5 then [(b, ⟨0, 12⟩)] else [] := by
  simp only [impulses, h, expectedApplications, List.filterMap_append]
  split_ifs <;> rfl

/-- C2: on a live cube with a body whose reported velocity is (vx, vy), update
of either variant applies the force (-25, 0) exactly when left is set, shift is
not set and vx > -15, then the force (25, 0) exactly when right is set, shift is
not set and vx < 15, and no other force; it applies torque +8 exactly when left
and shift are set, then torque -8 exactly when right and shift are set, and no
other torque.  Hence no force is applied while shift is held, no leftward force
when vx is -15 or less and no rightward force when vx is 15 or more. -/
theorem update_horizontal_control (input : Input) (vx vy : ℚ) (E : Engine) (s : Sys) (b : Body)
    (c : CubeJS.Cube) (d : CubeFixed.Cube)
    (hvel : E.linearVelocity s.log b = ⟨vx, vy⟩)
    (hc : c.alive = true ∧ c.body = some b)
    (hd : d.isDead = false ∧ d.isDestroy = false ∧ d.body = some b) :
    (forces (issued s (c.update input E s).sys)
        = (if input.left = true ∧ input.shift = false ∧ vx > -15 then [(b, ⟨-25, 0⟩)] else [])
          ++ (if input.right = true ∧ input.shift = false ∧ vx < 15 then [(b, ⟨25, 0⟩)] else [])
      ∧ torques (issued s (c.update input E s).sys)
        = (if input.left = true ∧ input.shift = true then [(b, 8)] else [])
          ++ (if input.right = true ∧ input.shift = true then [(b, -8)] else []))
    ∧ (forces (issued s (d.update input E s).sys)
        = (if input.left = true ∧ input.shift = false ∧ vx > -15 then [(b, ⟨-25, 0⟩)] else [])
          ++ (if input.right = true ∧ input.shift = false ∧ vx < 15 then [(b, ⟨25, 0⟩)] else [])
      ∧ torques (issued s (d.update input E s).sys)
        = (if input.left = true ∧ input.shift = true then [(b, 8)] else [])
          ++ (if input.right = true ∧ input.shift = true then [(b, -8)] else []))
    ∧ (input.shift = true →
        forces (issued s (c.update input E s).sys) = []
        ∧ forces (issued s (d.update input E s).sys) = [])
    ∧ (vx ≤ -15 →
        (∀ f ∈ forces (issued s (c.update input E s).sys), f ≠ (b, (⟨-25, 0⟩ : Point)))
        ∧ (∀ f ∈ forces (issued s (d.update input E s).sys), f ≠ (b, (⟨-25, 0⟩ : Point))))
    ∧ (15 ≤ vx →
        (∀ f ∈ forces (issued s (c.update input E s).sys), f ≠ (b, (⟨25, 0⟩ : Point)))
        ∧ (∀ f ∈ forces (issued s (d.update input E s).sys), f ≠ (b, (⟨25, 0⟩ : Point)))) := by
  have hj := cubejs_update_applied input vx vy E s b c hvel hc.1 hc.2
  have hf := cubefixed_update_applied input vx vy E s b d hvel hd.1 hd.2.1 hd.2.2
  have fj := forces_of_applied _ input vx vy b hj
  have ff := forces_of_applied _ input vx vy b hf
  refine ⟨⟨fj, torques_of_applied _ input vx vy b hj⟩, ⟨ff, torques_of_applied _ input vx vy b hf⟩,
    ?_, ?_, ?_⟩
  · intro hs
    rw [fj, ff]
    simp [hs]
  · intro hv
    have hnot : ¬ vx > -15 := not_lt.mpr hv
    rw [fj, ff]
    simp only [hnot, and_false, if_false, List.nil_append]
    split_ifs <;> norm_num
  · intro hv
    have hnot : ¬ vx < 15 := not_lt.mpr hv
    rw [fj, ff]
    simp only [hnot, and_false, if_false, List.append_nil]
    split_ifs <;> norm_num

/-- Witness of C2: left alone, at rest, applies the leftward force. -/
theorem update_horizontal_control_witness :
    (Engine.atRest.linearVelocity Sys.start.log ⟨1⟩ = ⟨0, 0⟩
      ∧ (CubeJS.Cube.live.alive = true ∧ CubeJS.Cube.live.body = some ⟨1⟩)
      ∧ (CubeFixed.Cube.live.isDead = false ∧ CubeFixed.Cube.live.isDestroy = false
          ∧ CubeFixed.Cube.live.body = some ⟨1⟩))
    ∧ forces (issued Sys.start (CubeJS.Cube.live.update ⟨true, false, false, false, false⟩
          Engine.atRest Sys.start).sys)
        = (if true = true ∧ false = false ∧ (0 : ℚ) > -15 then [((⟨1⟩ : Body), (⟨-25, 0⟩ : Point))] else [])
          ++ (if false = true ∧ false = false ∧ (0 : ℚ) < 15 then [((⟨1⟩ : Body), (⟨25, 0⟩ : Point))] else []) :=
  ⟨⟨rfl, ⟨rfl, rfl⟩, ⟨rfl, rfl, rfl⟩⟩,
    (update_horizontal_control ⟨true, false, false, false, false⟩ 0 0 Engine.atRest Sys.start ⟨1⟩
      CubeJS.Cube.live CubeFixed.Cube.live rfl ⟨rfl, rfl⟩ ⟨rfl, rfl, rfl⟩).1.1⟩

/-- C3: on a live cube with a body whose reported velocity is (vx, vy), update
of either variant applies the linear impulse (0, 12) to the centre exactly when
up or space is set and |vy| < 0.5, and applies no other impulse; so at most one
impulse is applied per call, also when up and space are both set. -/
theorem update_jump_impulse (input : Input) (vx vy : ℚ) (E : Engine) (s : Sys) (b : Body)
    (c : CubeJS.Cube) (d : CubeFixed.Cube)
    (hvel : E.linearVelocity s.log b = ⟨vx, vy⟩)
    (hc : c.alive = true ∧ c.body = some b)
    (hd : d.isDead = false ∧ d.isDestroy = false ∧ d.body = some b) :
    (impulses (issued s (c.update input E s).sys)
        = if (input.up = true ∨ input.space = true) ∧ |vy| < 0.5 then [(b, ⟨0, 12⟩)] else [])
    ∧ (impulses (issued s (d.update input E s).sys)
        = if (input.up = true ∨ input.space = true) ∧ |vy| < 0.5 then [(b, ⟨0, 12⟩)] else [])
    ∧ (impulses (issued s (c.update input E s).sys)).length ≤ 1
    ∧ (impulses (issued s (d.update input E s).sys)).length ≤ 1 := by
  have hj := impulses_of_applied _ input vx vy b
    (cubejs_update_applied input vx vy E s b c hvel hc.1 hc.2)
  have hf := impulses_of_applied _ input vx vy b
    (cubefixed_update_applied input vx vy E s b d hvel hd.1 hd.2.1 hd.2.2)
  refine ⟨hj, hf, ?_, ?_⟩
  · rw [hj]; split_ifs <;> simp
  · rw [hf]; split_ifs <;> simp

/-- Witness of C3: up and space together, at rest, apply one impulse. -/
theorem update_jump_impulse_witness :
    (Engine.atRest.linearVelocity Sys.start.log ⟨1⟩ = ⟨0, 0⟩
      ∧ (CubeJS.Cube.live.alive = true ∧ CubeJS.Cube.live.body = some ⟨1⟩)
      ∧ (CubeFixed.Cube.live.isDead = false ∧ CubeFixed.Cube.live.isDestroy = false
          ∧ CubeFixed.Cube.live.body = some ⟨1⟩))
    ∧ impulses (issued Sys.start (CubeJS.Cube.live.update ⟨false, false, true, true, false⟩
          Engine.atRest Sys.start).sys)
        = (if (true = true ∨ true = true) ∧ |(0 : ℚ)| < 0.5 then [((⟨1⟩ : Body), (⟨0, 12⟩ : Point))] else []) :=
  ⟨⟨rfl, ⟨rfl, rfl⟩, ⟨rfl, rfl, rfl⟩⟩,
    (update_jump_impulse ⟨false, false, true, true, false⟩ 0 0 Engine.atRest Sys.start ⟨1⟩
      CubeJS.Cube.live CubeFixed.Cube.live rfl ⟨rfl, rfl⟩ ⟨rfl, rfl, rfl⟩).1⟩

/-- Result of destroy of cube.js for every cube and engine. -/
theorem cubejs_destroy_result (c : CubeJS.Cube) (E : Engine) (s : Sys) :
    (c.destroy E s).outcome = Outcome.returned ()
    ∧ (c.destroy E s).cube = { c with body := none, alive := false }
    ∧ issued s (c.destroy E s).sys
        = (match c.body, c.world with
           | some body, some world => [Call.destroyBody world body]
           | _, _ => []) := by
  rcases c with ⟨cb, cw, cx, cy, ca, cg⟩
  rcases cb with _ | b <;> rcases cw with _ | w <;>
    simp [CubeJS.Cube.destroy, CubeJS.tryDestroyBody, issued, Sys.call]
  cases E.destroyBodyThrows s.log w b <;> simp

/-- Result of destroy of cube_fixed.js for every cube and engine. -/
theorem cubefixed_destroy_result (d : CubeFixed.Cube) (E : Engine) (s : Sys) :
    (d.destroy E s).outcome = Outcome.returned ()
    ∧ (d.destroy E s).cube = { d with body := none, isDead := true, isDestroy := true }
    ∧ issued s (d.destroy E s).sys
        = (match d.body, d.world with
           | some body, some world => [Call.destroyBody world body]
           | _, _ => []) := by
  rcases d with ⟨dw, dm, db, dx, dy, dd, ds, dp, dq⟩
  rcases db with _ | b <;> rcases dw with _ | w <;>
    simp [CubeFixed.Cube.destroy, CubeFixed.tryDestroyBody, issued, Sys.call]
  cases E.destroyBodyThrows s.log w b <;> simp


/-- C4: in both variants, for every cube state and every engine (whether or
not DestroyBody throws), destroy returns without an error, leaves the cube with
body = null and marked dead (all other fields as they were), issues exactly the
one call DestroyBody(body) on the world when both the body and the world were
present and no call at all otherwise; a second destroy right after issues no
call. -/
theorem destroy_swallows_and_clears (c : CubeJS.Cube) (d : CubeFixed.Cube) (E E2 : Engine)
    (s s2 : Sys) :
    ((c.destroy E s).outcome = Outcome.returned ()
      ∧ (c.destroy E s).cube = { c with body := none, alive := false }
      ∧ issued s (c.destroy E s).sys
          = (match c.body, c.world with
             | some body, some world => [Call.destroyBody world body]
             | _, _ => [])
      ∧ ((c.destroy E s).cube.destroy E2 s2).outcome = Outcome.returned ()
      ∧ issued s2 ((c.destroy E s).cube.destroy E2 s2).sys = [])
    ∧ ((d.destroy E s).outcome = Outcome.returned ()
      ∧ (d.destroy E s).cube = { d with body := none, isDead := true, isDestroy := true }
      ∧ issued s (d.destroy E s).sys
          = (match d.body, d.world with
             | some body, some world => [Call.destroyBody world body]
             | _, _ => [])
      ∧ ((d.destroy E s).cube.destroy E2 s2).outcome = Outcome.returned ()
      ∧ issued s2 ((d.destroy E s).cube.destroy E2 s2).sys = []) := by
  have hj := cubejs_destroy_result c E s
  have hf := cubefixed_destroy_result d E s
  have hj2 := cubejs_destroy_result (c.destroy E s).cube E2 s2
  have hf2 := cubefixed_destroy_result (d.destroy E s).cube E2 s2
  have bj : (c.destroy E s).cube.body = none := by rw [hj.2.1]
  have bf : (d.destroy E s).cube.body = none := by rw [hf.2.1]
  rw [bj] at hj2
  rw [bf] at hf2
  exact ⟨⟨hj.1, hj.2.1, hj.2.2, hj2.1, hj2.2.2⟩, ⟨hf.1, hf.2.1, hf.2.2, hf2.1, hf2.2.2⟩⟩

/-- C5: in both variants, when the body handle is absent, update with any input
and teleport with any coordinates (and eject in cube_fixed.js) return without
an error, leave every field of the cube and the whole binding state unchanged
(so no call is issued and no vector allocated), and getBody returns null.  The
body is absent on a new cube and after every destroy, and update on a destroyed
cube applies no force, torque or impulse. -/
theorem no_body_no_effect (c c0 : CubeJS.Cube) (d d0 : CubeFixed.Cube) (input : Input) (x y : ℚ)
    (world : World) (mirror : Bool) (E E0 : Engine) (s s0 : Sys)
    (hc : c.body = none) (hd : d.body = none) :
    (((c.update input E s).outcome = Outcome.returned () ∧ (c.update input E s).cube = c
        ∧ (c.update input E s).sys = s)
      ∧ ((c.teleport x y E s).outcome = Outcome.returned () ∧ (c.teleport x y E s).cube = c
        ∧ (c.teleport x y E s).sys = s)
      ∧ c.getBody = none)
    ∧ (((d.update input E s).outcome = Outcome.returned () ∧ (d.update input E s).cube = d
        ∧ (d.update input E s).sys = s)
      ∧ ((d.teleport x y E s).outcome = Outcome.returned () ∧ (d.teleport x y E s).cube = d
        ∧ (d.teleport x y E s).sys = s)
      ∧ ((d.eject E s).outcome = Outcome.returned () ∧ (d.eject E s).cube = d
        ∧ (d.eject E s).sys = s)
      ∧ d.getBody = none)
    ∧ (CubeJS.Cube.new.body = none ∧ (CubeFixed.Cube.new world mirror).body = none)
    ∧ ((c0.destroy E0 s0).cube.body = none ∧ (d0.destroy E0 s0).cube.body = none)
    ∧ (applied (issued s ((c0.destroy E0 s0).cube.update input E s).sys) = []
      ∧ applied (issued s ((d0.destroy E0 s0).cube.update input E s).sys) = []) := by
  have hc0 : (c0.destroy E0 s0).cube.body = none := by rw [(cubejs_destroy_result c0 E0 s0).2.1]
  have hd0 : (d0.destroy E0 s0).cube.body = none := by rw [(cubefixed_destroy_result d0 E0 s0).2.1]
  refine ⟨⟨?_, ?_, hc⟩, ⟨?_, ?_, ?_, hd⟩, ⟨rfl, rfl⟩, ⟨hc0, hd0⟩, ?_, ?_⟩
  · cases h : c.alive <;> simp [CubeJS.Cube.update, hc, h]
  · simp [CubeJS.Cube.teleport, hc]
  · cases h1 : d.isDead <;> cases h2 : d.isDestroy <;> simp [CubeFixed.Cube.update, hd, h1, h2]
  · simp [CubeFixed.Cube.teleport, hd]
  · cases h1 : d.isDead <;> simp [CubeFixed.Cube.eject, hd, h1]
  · cases h : (c0.destroy E0 s0).cube.alive <;>
      simp [CubeJS.Cube.update, hc0, h, issued, applied]
  · cases h1 : (d0.destroy E0 s0).cube.isDead <;> cases h2 : (d0.destroy E0 s0).cube.isDestroy <;>
      simp [CubeFixed.Cube.update, hd0, h1, h2, issued, applied]

/-- Witness of C5: a new cube of either variant has no body. -/
theorem no_body_no_effect_witness :
    (CubeJS.Cube.new.body = none ∧ (CubeFixed.Cube.new ⟨0⟩ false).body = none)
    ∧ (CubeJS.Cube.new.update ⟨true, true, true, true, true⟩ Engine.atRest Sys.start).sys = Sys.start
    ∧ ((CubeFixed.Cube.new ⟨0⟩ false).eject Engine.atRest Sys.start).sys = Sys.start :=
  ⟨⟨rfl, rfl⟩,
    (no_body_no_effect CubeJS.Cube.new CubeJS.Cube.live (CubeFixed.Cube.new ⟨0⟩ false)
      CubeFixed.Cube.live ⟨true, true, true, true, true⟩ 7 8 ⟨0⟩ false Engine.atRest Engine.atRest
      Sys.start Sys.start rfl rfl).1.1.2.2,
    (no_body_no_effect CubeJS.Cube.new CubeJS.Cube.live (CubeFixed.Cube.new ⟨0⟩ false)
      CubeFixed.Cube.live ⟨true, true, true, true, true⟩ 7 8 ⟨0⟩ false Engine.atRest Engine.atRest
      Sys.start Sys.start rfl rfl).2.1.2.2.1.2.2⟩

/-- Every method of cube.js other than spawn keeps the recorded spawn position,
and spawn records its coordinates. -/
theorem cubejs_step_spawn_position (c : CubeJS.Cube) (E : Engine) (s : Sys) (op : CubeJS.Op)
    (p : Point) (h : (⟨c.spawnX, c.spawnY⟩ : Point) = p) :
    (⟨(c.step E s op).1.spawnX, (c.step E s op).1.spawnY⟩ : Point) = CubeJS.lastSpawn p [op] := by
  subst h
  cases op with
  | spawn world x y => rfl
  | update input =>
    simp only [CubeJS.Cube.step, CubeJS.Cube.update, CubeJS.lastSpawn]
    split <;> rfl
  | teleport x y =>
    simp only [CubeJS.Cube.step, CubeJS.Cube.teleport, CubeJS.lastSpawn]
    split <;> rfl
  | getPosition =>
    simp only [CubeJS.Cube.step, CubeJS.Cube.getPosition, CubeJS.lastSpawn]
    split <;> rfl
  | getAngle =>
    simp only [CubeJS.Cube.step, CubeJS.Cube.getAngle, CubeJS.lastSpawn]
    split <;> rfl
  | destroy =>
    simp only [CubeJS.Cube.step, CubeJS.lastSpawn, (cubejs_destroy_result c E s).2.1]

/-- After any sequence of calls, a cube of cube.js records the coordinates of
the most recent spawn. -/
theorem cubejs_run_spawn_position (ops : List CubeJS.Op) (c : CubeJS.Cube) (E : Engine) (s : Sys) :
    (⟨(c.run E s ops).1.spawnX, (c.run E s ops).1.spawnY⟩ : Point)
      = CubeJS.lastSpawn ⟨c.spawnX, c.spawnY⟩ ops := by
  induction ops generalizing c s with
  | nil => rfl
  | cons op ops ih =>
    rw [CubeJS.Cube.run, ih]
    have h := cubejs_step_spawn_position c E s op _ rfl
    cases op <;> simp only [CubeJS.lastSpawn] at h ⊢ <;> rw [h]

/-- Every method of cube_fixed.js other than spawn keeps the recorded spawn
position, and spawn records its coordinates. -/
theorem cubefixed_step_spawn_position (c : CubeFixed.Cube) (E : Engine) (s : Sys)
    (op : CubeFixed.Op) (p : Point) (h : (⟨c.spawnX, c.spawnY⟩ : Point) = p) :
    (⟨(c.step E s op).1.spawnX, (c.step E s op).1.spawnY⟩ : Point)
      = CubeFixed.lastSpawn p [op] := by
  subst h
  cases op with
  | spawn x y =>
    simp only [CubeFixed.Cube.step, CubeFixed.Cube.spawn, CubeFixed.Cube.init, CubeFixed.lastSpawn]
    split
    · rfl
    · split <;> rfl
  | update input =>
    simp only [CubeFixed.Cube.step, CubeFixed.Cube.update, CubeFixed.lastSpawn]
    split
    · split <;> rfl
    · rfl
  | teleport x y =>
    simp only [CubeFixed.Cube.step, CubeFixed.Cube.teleport, CubeFixed.lastSpawn]
    split <;> rfl
  | getPosition =>
    simp only [CubeFixed.Cube.step, CubeFixed.Cube.getPosition, CubeFixed.lastSpawn]
    split <;> rfl
  | getAngle =>
    simp only [CubeFixed.Cube.step, CubeFixed.Cube.getAngle, CubeFixed.lastSpawn]
    split <;> rfl
  | flip => rfl
  | eject =>
    simp only [CubeFixed.Cube.step, CubeFixed.Cube.eject, CubeFixed.lastSpawn]
    split <;> rfl
  | kill => rfl
  | destroy =>
    simp only [CubeFixed.Cube.step, CubeFixed.lastSpawn, (cubefixed_destroy_result c E s).2.1]

/-- After any sequence of calls, a cube of cube_fixed.js records the
coordinates of the most recent spawn. -/
theorem cubefixed_run_spawn_position (ops : List CubeFixed.Op) (c : CubeFixed.Cube) (E : Engine)
    (s : Sys) :
    (⟨(c.run E s ops).1.spawnX, (c.run E s ops).1.spawnY⟩ : Point)
      = CubeFixed.lastSpawn ⟨c.spawnX, c.spawnY⟩ ops := by
  induction ops generalizing c s with
  | nil => rfl
  | cons op ops ih =>
    rw [CubeFixed.Cube.run, ih]
    have h := cubefixed_step_spawn_position c E s op _ rfl
    cases op <;> simp only [CubeFixed.lastSpawn] at h ⊢ <;> rw [h]

/-- C6: in both variants, a cube reached from a new cube by any sequence of
method calls and holding no body answers getPosition, without failing and
without any call, with the coordinates given to the most recent spawn of the
sequence, (0, 0) when there was none, and answers getAngle with 0.  For every
cube, this is the recorded spawn position also after a teleport followed by a
destroy.  When the body is present getPosition issues GetPosition and returns
the position the engine reports. -/
theorem getPosition_without_body (ops : List CubeJS.Op) (opsF : List CubeFixed.Op)
    (world : World) (mirror : Bool) (E E2 E3 E4 : Engine) (s s2 s3 s4 : Sys) (x y : ℚ)
    (c c1 : CubeJS.Cube) (d d1 : CubeFixed.Cube)
    (hc : c = (CubeJS.Cube.new.run E s ops).1)
    (hd : d = ((CubeFixed.Cube.new world mirror).run E s opsF).1)
    (hcb : c.body = none) (hdb : d.body = none) :
    ((c.getPosition E2 s2).outcome = Outcome.returned (CubeJS.lastSpawn ⟨0, 0⟩ ops)
      ∧ (c.getPosition E2 s2).sys = s2
      ∧ (c.getAngle E2 s2).outcome = Outcome.returned 0
      ∧ (c.getAngle E2 s2).sys = s2)
    ∧ ((d.getPosition E2 s2).outcome = Outcome.returned (CubeFixed.lastSpawn ⟨0, 0⟩ opsF)
      ∧ (d.getPosition E2 s2).sys = s2
      ∧ (d.getAngle E2 s2).outcome = Outcome.returned 0
      ∧ (d.getAngle E2 s2).sys = s2)
    ∧ ((((c1.teleport x y E3 s3).cube.destroy E4 s4).cube.getPosition E2 s2).outcome
          = Outcome.returned ⟨c1.spawnX, c1.spawnY⟩
      ∧ (((d1.teleport x y E3 s3).cube.destroy E4 s4).cube.getPosition E2 s2).outcome
          = Outcome.returned ⟨d1.spawnX, d1.spawnY⟩)
    ∧ (∀ b, c1.body = some b →
        (c1.getPosition E2 s2).outcome = Outcome.returned (E2.position s2.log b)
        ∧ issued s2 (c1.getPosition E2 s2).sys = [Call.getPosition b])
    ∧ (∀ b, d1.body = some b →
        (d1.getPosition E2 s2).outcome = Outcome.returned (E2.position s2.log b)
        ∧ issued s2 (d1.getPosition E2 s2).sys = [Call.getPosition b]) := by
  have pj := cubejs_run_spawn_position ops CubeJS.Cube.new E s
  have pf := cubefixed_run_spawn_position opsF (CubeFixed.Cube.new world mirror) E s
  rw [← hc] at pj
  rw [← hd] at pf
  have tj : (c1.teleport x y E3 s3).cube = c1 := by
    simp only [CubeJS.Cube.teleport]; split <;> rfl
  have tf : (d1.teleport x y E3 s3).cube = d1 := by
    simp only [CubeFixed.Cube.teleport]; split <;> rfl
  refine ⟨⟨?_, ?_, ?_, ?_⟩, ⟨?_, ?_, ?_, ?_⟩, ⟨?_, ?_⟩, ?_, ?_⟩
  · simp only [CubeJS.Cube.getPosition, hcb, pj]; rfl
  · simp only [CubeJS.Cube.getPosition, hcb]
  · simp only [CubeJS.Cube.getAngle, hcb]
  · simp only [CubeJS.Cube.getAngle, hcb]
  · simp only [CubeFixed.Cube.getPosition, hdb, pf]; rfl
  · simp only [CubeFixed.Cube.getPosition, hdb]
  · simp only [CubeFixed.Cube.getAngle, hdb]
  · simp only [CubeFixed.Cube.getAngle, hdb]
  · rw [tj, (cubejs_destroy_result c1 E4 s4).2.1]; rfl
  · rw [tf, (cubefixed_destroy_result d1 E4 s4).2.1]; rfl
  · intro b hb
    simp [CubeJS.Cube.getPosition, hb, issued, Sys.call]
  · intro b hb
    simp [CubeFixed.Cube.getPosition, hb, issued, Sys.call]

/-- Witness of C6: spawn at (3, 4), teleport to (7, 8), destroy; both variants
then answer getPosition with (3, 4). -/
theorem getPosition_without_body_witness :
    ((CubeJS.Cube.new.run Engine.atRest Sys.start
        [CubeJS.Op.spawn ⟨0⟩ 3 4, CubeJS.Op.teleport 7 8, CubeJS.Op.destroy]).1.body = none
      ∧ ((CubeFixed.Cube.new ⟨0⟩ false).run Engine.atRest Sys.start
        [CubeFixed.Op.spawn 3 4, CubeFixed.Op.teleport 7 8, CubeFixed.Op.destroy]).1.body = none)
    ∧ ((CubeJS.Cube.new.run Engine.atRest Sys.start
        [CubeJS.Op.spawn ⟨0⟩ 3 4, CubeJS.Op.teleport 7 8, CubeJS.Op.destroy]).1.getPosition
          Engine.atRest Sys.start).outcome = Outcome.returned ⟨3, 4⟩
    ∧ (((CubeFixed.Cube.new ⟨0⟩ false).run Engine.atRest Sys.start
        [CubeFixed.Op.spawn 3 4, CubeFixed.Op.teleport 7 8, CubeFixed.Op.destroy]).1.getPosition
          Engine.atRest Sys.start).outcome = Outcome.returned ⟨3, 4⟩ :=
  have hj : (CubeJS.Cube.new.run Engine.atRest Sys.start
      [CubeJS.Op.spawn ⟨0⟩ 3 4, CubeJS.Op.teleport 7 8, CubeJS.Op.destroy]).1.body = none := by
    simp [CubeJS.Cube.run, CubeJS.Cube.step, (cubejs_destroy_result _ _ _).2.1]
  have hf : ((CubeFixed.Cube.new ⟨0⟩ false).run Engine.atRest Sys.start
      [CubeFixed.Op.spawn 3 4, CubeFixed.Op.teleport 7 8, CubeFixed.Op.destroy]).1.body = none := by
    simp [CubeFixed.Cube.run, CubeFixed.Cube.step, (cubefixed_destroy_result _ _ _).2.1]
  have h := getPosition_without_body
    [CubeJS.Op.spawn ⟨0⟩ 3 4, CubeJS.Op.teleport 7 8, CubeJS.Op.destroy]
    [CubeFixed.Op.spawn 3 4, CubeFixed.Op.teleport 7 8, CubeFixed.Op.destroy]
    ⟨0⟩ false Engine.atRest Engine.atRest Engine.atRest Engine.atRest
    Sys.start Sys.start Sys.start Sys.start 7 8 _ CubeJS.Cube.live _ CubeFixed.Cube.live
    rfl rfl hj hf
  ⟨⟨hj, hf⟩, h.1.1, h.2.1.1⟩

/-- C7: in both variants, teleport(x, y) on a cube that has a body allocates the
vector (x, y), reads the body's angle, calls SetTransform with that vector and
that angle, then SetLinearVelocity with a new vector (0, 0), then
SetAngularVelocity with 0, in that order (cube_fixed.js then releases the two
vectors when the binding has a destroy function); it returns without an error
and changes no field of the cube. -/
theorem teleport_resets_body (x y : ℚ) (E : Engine) (s : Sys) (b : Body)
    (c : CubeJS.Cube) (d : CubeFixed.Cube) (hc : c.body = some b) (hd : d.body = some b) :
    (issued s (c.teleport x y E s).sys
        = [Call.newVec2 ⟨s.nextId, x, y⟩,
           Call.getAngle b,
           Call.setTransform b ⟨s.nextId, x, y⟩ (E.angle (s.log ++ [Call.newVec2 ⟨s.nextId, x, y⟩]) b),
           Call.newVec2 ⟨s.nextId + 1, 0, 0⟩,
           Call.setLinearVelocity b ⟨s.nextId + 1, 0, 0⟩,
           Call.setAngularVelocity b 0]
      ∧ (c.teleport x y E s).cube = c
      ∧ (c.teleport x y E s).outcome = Outcome.returned ())
    ∧ (issued s (d.teleport x y E s).sys
        = [Call.newVec2 ⟨s.nextId, x, y⟩,
           Call.getAngle b,
           Call.setTransform b ⟨s.nextId, x, y⟩ (E.angle (s.log ++ [Call.newVec2 ⟨s.nextId, x, y⟩]) b),
           Call.newVec2 ⟨s.nextId + 1, 0, 0⟩,
           Call.setLinearVelocity b ⟨s.nextId + 1, 0, 0⟩,
           Call.setAngularVelocity b 0]
          ++ (if E.hasDestroy = true then [Call.destroy s.nextId, Call.destroy (s.nextId + 1)] else [])
      ∧ (d.teleport x y E s).cube = d
      ∧ (d.teleport x y E s).outcome = Outcome.returned ()) := by
  refine ⟨?_, ?_⟩
  · simp [CubeJS.Cube.teleport, hc, issued, Sys.call, Sys.newVec2]
  · cases hE : E.hasDestroy <;>
      simp [CubeFixed.Cube.teleport, hd, hE, issued, Sys.call, Sys.newVec2]

/-- Witness of C7: teleport of the live cubes to (7, 8). -/
theorem teleport_resets_body_witness :
    (CubeJS.Cube.live.body = some ⟨1⟩ ∧ CubeFixed.Cube.live.body = some ⟨1⟩)
    ∧ issued Sys.start (CubeJS.Cube.live.teleport 7 8 Engine.atRest Sys.start).sys
        = [Call.newVec2 ⟨Sys.start.nextId, 7, 8⟩,
           Call.getAngle ⟨1⟩,
           Call.setTransform ⟨1⟩ ⟨Sys.start.nextId, 7, 8⟩
             (Engine.atRest.angle (Sys.start.log ++ [Call.newVec2 ⟨Sys.start.nextId, 7, 8⟩]) ⟨1⟩),
           Call.newVec2 ⟨Sys.start.nextId + 1, 0, 0⟩,
           Call.setLinearVelocity ⟨1⟩ ⟨Sys.start.nextId + 1, 0, 0⟩,
           Call.setAngularVelocity ⟨1⟩ 0] :=
  ⟨⟨rfl, rfl⟩,
    (teleport_resets_body 7 8 Engine.atRest Sys.start ⟨1⟩ CubeJS.Cube.live CubeFixed.Cube.live
      rfl rfl).1.1⟩

/-- Release discipline of update of cube_fixed.js when the binding has a
destroy function: for every cube, input and velocity, every vector allocated
during the call is released exactly once, after the call it was passed to, and
the objects released are exactly the vectors allocated, which are distinct. -/
theorem cubefixed_update_releases (input : Input) (E : Engine) (s : Sys) (d : CubeFixed.Cube)
    (hE : E.hasDestroy = true) :
    (∀ v ∈ allocatedVecs (issued s (d.update input E s).sys),
        releasedOnceAfterUse (issued s (d.update input E s).sys) v.id)
    ∧ released (issued s (d.update input E s).sys)
        = (allocatedVecs (issued s (d.update input E s).sys)).map Vec2.id
    ∧ ((allocatedVecs (issued s (d.update input E s).sys)).map Vec2.id).Nodup := by
  rcases input with ⟨l, r, u, sp, sh⟩
  rcases d with ⟨w, m, body, sx, sy, dead, destroyed, p, sp0⟩
  rcases body with _ | b
  · cases dead <;> cases destroyed <;>
      simp [CubeFixed.Cube.update, issued, allocatedVecs, released]
  · cases dead <;> cases destroyed <;>
      try simp [CubeFixed.Cube.update, issued, allocatedVecs, released]
    by_cases h1 : -15 < (E.linearVelocity s.log b).x <;>
    by_cases h2 : (E.linearVelocity s.log b).x < 15 <;>
    by_cases h3 : |(E.linearVelocity s.log b).y| < 0.5 <;>
      cases l <;> cases r <;> cases u <;> cases sp <;> cases sh <;>
      simp [CubeFixed.Cube.update, CubeFixed.Cube.getPosition, h1, h2, h3, hE, Sys.call,
        Sys.newVec2, Sys.release, issued, CUBE, allocatedVecs, released, releasedOnceAfterUse,
        passedIn, beforeRelease, fromRelease, List.count_cons, Nat.add_assoc]

/-- Release discipline of teleport of cube_fixed.js when the binding has a
destroy function. -/
theorem cubefixed_teleport_releases (x y : ℚ) (E : Engine) (s : Sys) (d : CubeFixed.Cube)
    (hE : E.hasDestroy = true) :
    (∀ v ∈ allocatedVecs (issued s (d.teleport x y E s).sys),
        releasedOnceAfterUse (issued s (d.teleport x y E s).sys) v.id)
    ∧ released (issued s (d.teleport x y E s).sys)
        = (allocatedVecs (issued s (d.teleport x y E s).sys)).map Vec2.id
    ∧ ((allocatedVecs (issued s (d.teleport x y E s).sys)).map Vec2.id).Nodup := by
  rcases d with ⟨w, m, body, sx, sy, dead, destroyed, p, sp0⟩
  rcases body with _ | b <;>
    simp [CubeFixed.Cube.teleport, hE, Sys.call, Sys.newVec2, issued, allocatedVecs, released,
      releasedOnceAfterUse, passedIn, beforeRelease, fromRelease, List.count_cons, Nat.add_assoc]

/-- The same input as in the cube.js case below, on cube_fixed.js: the vector
(-25, 0) is allocated, passed to ApplyForceToCenter and then released, once. -/
theorem cubefixed_update_releases_example :
    Engine.atRest.hasDestroy = true
    ∧ issued Sys.start (CubeFixed.Cube.live.update ⟨true, false, false, false, false⟩
          Engine.atRest Sys.start).sys
        = [Call.getLinearVelocity ⟨1⟩, Call.newVec2 ⟨0, -25, 0⟩,
           Call.applyForceToCenter ⟨1⟩ ⟨0, -25, 0⟩ true, Call.destroy 0, Call.getPosition ⟨1⟩]
    ∧ ∀ v ∈ allocatedVecs (issued Sys.start (CubeFixed.Cube.live.update
          ⟨true, false, false, false, false⟩ Engine.atRest Sys.start).sys),
        releasedOnceAfterUse (issued Sys.start (CubeFixed.Cube.live.update
          ⟨true, false, false, false, false⟩ Engine.atRest Sys.start).sys) v.id := by
  refine ⟨rfl, ?_, (cubefixed_update_releases ⟨true, false, false, false, false⟩ Engine.atRest
    Sys.start CubeFixed.Cube.live rfl).1⟩
  simp [CubeFixed.Cube.update, CubeFixed.Cube.getPosition, CubeFixed.Cube.live, CubeFixed.Cube.new,
    Engine.atRest, Engine.fixedAnswers, Sys.start, Sys.call, Sys.newVec2, Sys.release, issued, CUBE]

/-- No method of cube.js that allocates vectors ever releases anything: for
every cube, input, coordinates and engine, update and teleport issue no release
call. -/
theorem cubejs_never_releases (input : Input) (x y : ℚ) (E : Engine) (s : Sys) (c : CubeJS.Cube) :
    released (issued s (c.update input E s).sys) = []
    ∧ released (issued s (c.teleport x y E s).sys) = [] := by
  rcases input with ⟨l, r, u, sp, sh⟩
  rcases c with ⟨body, w, sx, sy, alive, g⟩
  refine ⟨?_, ?_⟩
  · rcases body with _ | b
    · cases alive <;> simp [CubeJS.Cube.update, issued, released]
    · cases alive
      · simp [CubeJS.Cube.update, issued, released]
      · by_cases h1 : -15 < (E.linearVelocity s.log b).x <;>
        by_cases h2 : (E.linearVelocity s.log b).x < 15 <;>
        by_cases h3 : |(E.linearVelocity s.log b).y| < 0.5 <;>
          cases l <;> cases r <;> cases u <;> cases sp <;> cases sh <;>
          simp [CubeJS.Cube.update, h1, h2, h3, Sys.call, Sys.newVec2, issued, CUBE, released]
  · rcases body with _ | b <;>
      simp [CubeJS.Cube.teleport, Sys.call, Sys.newVec2, issued, released]

/-- C8, cube.js at the failing input: with a destroy function in the binding,
on the live cube that spawn(world, 0, 0) leaves, update with left alone set at
rest allocates the vector (-25, 0), passes it to ApplyForceToCenter and returns
without releasing it; and teleport to (7, 8) allocates two vectors and releases
neither. -/
theorem cubejs_update_leaks_vector :
    Engine.atRest.hasDestroy = true
    ∧ (CubeJS.Cube.new.spawn ⟨0⟩ 0 0 Engine.atRest Sys.start).cube = CubeJS.Cube.live
    ∧ issued Sys.start (CubeJS.Cube.live.update ⟨true, false, false, false, false⟩
          Engine.atRest Sys.start).sys
        = [Call.getLinearVelocity ⟨1⟩, Call.newVec2 ⟨0, -25, 0⟩,
           Call.applyForceToCenter ⟨1⟩ ⟨0, -25, 0⟩ true]
    ∧ allocatedVecs (issued Sys.start (CubeJS.Cube.live.update ⟨true, false, false, false, false⟩
          Engine.atRest Sys.start).sys) = [⟨0, -25, 0⟩]
    ∧ released (issued Sys.start (CubeJS.Cube.live.update ⟨true, false, false, false, false⟩
          Engine.atRest Sys.start).sys) = []
    ∧ ¬ releasedOnceAfterUse (issued Sys.start (CubeJS.Cube.live.update
          ⟨true, false, false, false, false⟩ Engine.atRest Sys.start).sys) 0
    ∧ allocatedVecs (issued Sys.start (CubeJS.Cube.live.teleport 7 8 Engine.atRest Sys.start).sys)
        = [⟨0, 7, 8⟩, ⟨1, 0, 0⟩]
    ∧ released (issued Sys.start (CubeJS.Cube.live.teleport 7 8 Engine.atRest Sys.start).sys)
        = [] := by
  refine ⟨rfl, ?_, ?_, ?_, ?_, ?_, ?_, ?_⟩ <;>
    simp [CubeJS.Cube.update, CubeJS.Cube.teleport, CubeJS.Cube.spawn, CubeJS.Cube.live,
      CubeJS.Cube.new, Engine.atRest, Engine.fixedAnswers, Sys.start, Sys.call, Sys.newVec2,
      issued, CUBE, allocatedVecs, released, releasedOnceAfterUse]

/-- Calls of update of cube_fixed.js against those of cube.js, and the fields
both leave, on live cubes holding the same body. -/
theorem update_calls_compared (input : Input) (vx vy : ℚ) (E : Engine) (s : Sys) (b : Body)
    (c : CubeJS.Cube) (d : CubeFixed.Cube)
    (hvel : E.linearVelocity s.log b = ⟨vx, vy⟩)
    (halive : c.alive = true) (hcbody : c.body = some b)
    (hdead : d.isDead = false) (hdestroy : d.isDestroy = false) (hdbody : d.body = some b) :
    withoutReleaseAndGetPosition (issued s (d.update input E s).sys)
        = issued s (c.update input E s).sys
    ∧ released (issued s (c.update input E s).sys) = []
    ∧ (c.update input E s).sys.nextId = (d.update input E s).sys.nextId
    ∧ (c.update input E s).outcome = Outcome.returned ()
    ∧ (d.update input E s).outcome = Outcome.returned ()
    ∧ (c.update input E s).cube = c
    ∧ (d.update input E s).sys.log.getLast? = some (Call.getPosition b)
    ∧ (d.update input E s).cube
        = { d with position := E.position (d.update input E s).sys.log.dropLast b } := by
  rcases input with ⟨l, r, u, sp, sh⟩
  by_cases h1 : -15 < vx <;> by_cases h2 : vx < 15 <;> by_cases h3 : |vy| < 0.5 <;>
    cases l <;> cases r <;> cases u <;> cases sp <;> cases sh <;> cases hE : E.hasDestroy <;>
    simp [CubeJS.Cube.update, CubeFixed.Cube.update, CubeFixed.Cube.getPosition, halive, hcbody,
      hdead, hdestroy, hdbody, hvel, h1, h2, h3, hE, Sys.call, Sys.newVec2, Sys.release, issued,
      CUBE, withoutReleaseAndGetPosition, released, List.getLast?_append, List.dropLast_append_cons]

/-- Vectors allocated and released by update of cube_fixed.js against those of
cube.js, on live cubes holding the same body: both allocate the same vectors,
and cube_fixed.js releases exactly these, in order, when the binding has a
destroy function and nothing otherwise. -/
theorem update_releases_compared (input : Input) (vx vy : ℚ) (E : Engine) (s : Sys) (b : Body)
    (c : CubeJS.Cube) (d : CubeFixed.Cube)
    (hvel : E.linearVelocity s.log b = ⟨vx, vy⟩)
    (halive : c.alive = true) (hcbody : c.body = some b)
    (hdead : d.isDead = false) (hdestroy : d.isDestroy = false) (hdbody : d.body = some b) :
    allocatedVecs (issued s (d.update input E s).sys)
        = allocatedVecs (issued s (c.update input E s).sys)
    ∧ released (issued s (d.update input E s).sys)
        = (if E.hasDestroy = true
            then (allocatedVecs (issued s (d.update input E s).sys)).map Vec2.id
            else []) := by
  rcases input with ⟨l, r, u, sp, sh⟩
  by_cases h1 : -15 < vx <;> by_cases h2 : vx < 15 <;> by_cases h3 : |vy| < 0.5 <;>
    cases l <;> cases r <;> cases u <;> cases sp <;> cases sh <;> cases hE : E.hasDestroy <;>
    simp [CubeJS.Cube.update, CubeFixed.Cube.update, CubeFixed.Cube.getPosition, halive, hcbody,
      hdead, hdestroy, hdbody, hvel, h1, h2, h3, hE, Sys.call, Sys.newVec2, Sys.release, issued,
      CUBE, allocatedVecs, released]

/-- C9: on live cubes holding the same body, with the same input, velocity and
binding state, update of cube.js and update of cube_fixed.js issue the same
ApplyForceToCenter, ApplyTorque and ApplyLinearImpulseToCenter calls with the
same arguments, namely left force, right force, left torque, right torque, jump
impulse, each when its condition holds.  The calls of cube_fixed.js without its
release calls and its final GetPosition are exactly the calls of cube.js, which
releases nothing and leaves its cube unchanged; cube_fixed.js ends with
GetPosition and changes only its position field, to the engine's answer.  Both
allocate the same vectors, and cube_fixed.js also releases them: its release
calls are exactly the vectors it allocated, in order, when the binding has a
destroy function (each released once, after the call it was passed to), and
none when the binding has no destroy function. -/
theorem update_variants_equivalent (input : Input) (vx vy : ℚ) (E : Engine) (s : Sys) (b : Body)
    (c : CubeJS.Cube) (d : CubeFixed.Cube)
    (hvel : E.linearVelocity s.log b = ⟨vx, vy⟩)
    (hc : c.alive = true ∧ c.body = some b)
    (hd : d.isDead = false ∧ d.isDestroy = false ∧ d.body = some b) :
    applied (issued s (c.update input E s).sys) = expectedApplications input vx vy b
    ∧ applied (issued s (d.update input E s).sys) = applied (issued s (c.update input E s).sys)
    ∧ withoutReleaseAndGetPosition (issued s (d.update input E s).sys)
        = issued s (c.update input E s).sys
    ∧ released (issued s (c.update input E s).sys) = []
    ∧ (c.update input E s).outcome = Outcome.returned ()
    ∧ (d.update input E s).outcome = Outcome.returned ()
    ∧ (c.update input E s).cube = c
    ∧ (d.update input E s).sys.log.getLast? = some (Call.getPosition b)
    ∧ (d.update input E s).cube
        = { d with position := E.position (d.update input E s).sys.log.dropLast b }
    ∧ allocatedVecs (issued s (d.update input E s).sys)
        = allocatedVecs (issued s (c.update input E s).sys)
    ∧ released (issued s (d.update input E s).sys)
        = (if E.hasDestroy = true
            then (allocatedVecs (issued s (d.update input E s).sys)).map Vec2.id
            else [])
    ∧ (E.hasDestroy = true →
        ∀ v ∈ allocatedVecs (issued s (d.update input E s).sys),
          releasedOnceAfterUse (issued s (d.update input E s).sys) v.id) := by
  have hj := cubejs_update_applied input vx vy E s b c hvel hc.1 hc.2
  have hf := cubefixed_update_applied input vx vy E s b d hvel hd.1 hd.2.1 hd.2.2
  have h := update_calls_compared input vx vy E s b c d hvel hc.1 hc.2 hd.1 hd.2.1 hd.2.2
  have hr := update_releases_compared input vx vy E s b c d hvel hc.1 hc.2 hd.1 hd.2.1 hd.2.2
  exact ⟨hj, hf.trans hj.symm, h.1, h.2.1, h.2.2.2.1, h.2.2.2.2.1, h.2.2.2.2.2.1,
    h.2.2.2.2.2.2.1, h.2.2.2.2.2.2.2, hr.1, hr.2,
    fun hE => (cubefixed_update_releases input E s d hE).1⟩

/-- Witness of C9: every key held, at rest. -/
theorem update_variants_equivalent_witness :
    (Engine.atRest.linearVelocity Sys.start.log ⟨1⟩ = ⟨0, 0⟩
      ∧ (CubeJS.Cube.live.alive = true ∧ CubeJS.Cube.live.body = some ⟨1⟩)
      ∧ (CubeFixed.Cube.live.isDead = false ∧ CubeFixed.Cube.live.isDestroy = false
          ∧ CubeFixed.Cube.live.body = some ⟨1⟩))
    ∧ applied (issued Sys.start (CubeFixed.Cube.live.update ⟨true, true, true, true, true⟩
          Engine.atRest Sys.start).sys)
        = applied (issued Sys.start (CubeJS.Cube.live.update ⟨true, true, true, true, true⟩
          Engine.atRest Sys.start).sys)
    ∧ withoutReleaseAndGetPosition (issued Sys.start (CubeFixed.Cube.live.update
          ⟨true, true, true, true, true⟩ Engine.atRest Sys.start).sys)
        = issued Sys.start (CubeJS.Cube.live.update ⟨true, true, true, true, true⟩
          Engine.atRest Sys.start).sys
    ∧ released (issued Sys.start (CubeFixed.Cube.live.update ⟨true, true, true, true, true⟩
          Engine.atRest Sys.start).sys)
        = (if Engine.atRest.hasDestroy = true
            then (allocatedVecs (issued Sys.start (CubeFixed.Cube.live.update
              ⟨true, true, true, true, true⟩ Engine.atRest Sys.start).sys)).map Vec2.id
            else []) :=
  ⟨⟨rfl, ⟨rfl, rfl⟩, ⟨rfl, rfl, rfl⟩⟩,
    (update_variants_equivalent ⟨true, true, true, true, true⟩ 0 0 Engine.atRest Sys.start ⟨1⟩
      CubeJS.Cube.live CubeFixed.Cube.live rfl ⟨rfl, rfl⟩ ⟨rfl, rfl, rfl⟩).2.1,
    (update_variants_equivalent ⟨true, true, true, true, true⟩ 0 0 Engine.atRest Sys.start ⟨1⟩
      CubeJS.Cube.live CubeFixed.Cube.live rfl ⟨rfl, rfl⟩ ⟨rfl, rfl, rfl⟩).2.2.1,
    (update_variants_equivalent ⟨true, true, true, true, true⟩ 0 0 Engine.atRest Sys.start ⟨1⟩
      CubeJS.Cube.live CubeFixed.Cube.live rfl ⟨rfl, rfl⟩ ⟨rfl, rfl, rfl⟩).2.2.2.2.2.2.2.2.2.2.1⟩

/-- The body definitions of a concatenated log. -/
theorem bodyDefs_append (l₁ l₂ : List Call) : bodyDefs (l₁ ++ l₂) = bodyDefs l₁ ++ bodyDefs l₂ := by
  induction l₁ with
  | nil => rfl
  | cons c l ih => cases c <;> simp [bodyDefs, ih]

/-- The fixture definitions of a concatenated log. -/
theorem fixtureDefs_append (l₁ l₂ : List Call) :
    fixtureDefs (l₁ ++ l₂) = fixtureDefs l₁ ++ fixtureDefs l₂ := by
  induction l₁ with
  | nil => rfl
  | cons c l ih => cases c <;> simp [fixtureDefs, ih]

/-- The vertex loop only allocates vectors. -/
theorem pushVertices_log (dx dy : ℚ) (vertices : List Point) (vecs : List Vec2) (s : Sys) :
    ∃ seg, (CubeFixed.pushVertices dx dy vertices vecs s).2.log = s.log ++ seg
      ∧ bodyDefs seg = [] ∧ fixtureDefs seg = [] := by
  induction vertices generalizing vecs s with
  | nil => exact ⟨[], by simp [CubeFixed.pushVertices], rfl, rfl⟩
  | cons p rest ih =>
    obtain ⟨seg, h, hb, hf⟩ := ih (vecs ++ [(s.newVec2 (p.x + dx) (p.y + dy)).1])
      (s.newVec2 (p.x + dx) (p.y + dy)).2
    refine ⟨Call.newVec2 ⟨s.nextId, p.x + dx, p.y + dy⟩ :: seg, ?_, ?_, ?_⟩
    · simp only [CubeFixed.pushVertices]
      rw [h]
      simp [Sys.newVec2]
    · simpa [bodyDefs] using hb
    · simpa [fixtureDefs] using hf

/-- The cleanup loop only releases objects. -/
theorem destroyAll_log (vecs : List Vec2) (s : Sys) :
    ∃ seg, (CubeFixed.destroyAll vecs s).log = s.log ++ seg
      ∧ bodyDefs seg = [] ∧ fixtureDefs seg = [] := by
  induction vecs generalizing s with
  | nil => exact ⟨[], by simp [CubeFixed.destroyAll], rfl, rfl⟩
  | cons v rest ih =>
    obtain ⟨seg, h, hb, hf⟩ := ih (s.call (Call.destroy v.id))
    refine ⟨Call.destroy v.id :: seg, ?_, ?_, ?_⟩
    · simp only [CubeFixed.destroyAll]
      rw [h]
      simp [Sys.call]
    · simpa [bodyDefs] using hb
    · simpa [fixtureDefs] using hf

/-- The shape helper creates no body and no fixture. -/
theorem createShapeCube_log (obj : CubeFixed.AddOptions) (E : Engine) (s : Sys) :
    ∃ seg, (CubeFixed.createShapeCube obj E s).2.log = s.log ++ seg
      ∧ bodyDefs seg = [] ∧ fixtureDefs seg = [] := by
  unfold CubeFixed.createShapeCube
  by_cases hp : CubeFixed.strOr obj.shape "box" = "polygon"
  · simp only [hp, if_true]
    rcases hv : obj.vertices with _ | vertices
    · exact ⟨[Call.newPolygonShape s.nextId], by simp [CubeFixed.alloc], rfl, rfl⟩
    · obtain ⟨seg1, h1, hb1, hf1⟩ := pushVertices_log (CubeFixed.numOr obj.mx 0)
        (CubeFixed.numOr obj.my 0) vertices [] (CubeFixed.alloc s Call.newPolygonShape).2
      cases hE : E.hasDestroy
      · refine ⟨Call.newPolygonShape s.nextId :: seg1, ?_, ?_, ?_⟩
        · simp only [CubeFixed.alloc] at h1 ⊢
          simp [h1]
        · simpa [bodyDefs] using hb1
        · simpa [fixtureDefs] using hf1
      · obtain ⟨seg2, h2, hb2, hf2⟩ := destroyAll_log
          (CubeFixed.pushVertices (CubeFixed.numOr obj.mx 0) (CubeFixed.numOr obj.my 0) vertices []
            (CubeFixed.alloc s Call.newPolygonShape).2).1
          (CubeFixed.pushVertices (CubeFixed.numOr obj.mx 0) (CubeFixed.numOr obj.my 0) vertices []
            (CubeFixed.alloc s Call.newPolygonShape).2).2
        refine ⟨Call.newPolygonShape s.nextId :: (seg1 ++ seg2), ?_, ?_, ?_⟩
        · simp only [CubeFixed.alloc] at h1 h2 ⊢
          simp [h2, h1]
        · simp [bodyDefs, bodyDefs_append, hb1, hb2]
        · simp [fixtureDefs, fixtureDefs_append, hf1, hf2]
  · by_cases hbox : CubeFixed.strOr obj.shape "box" = "box"
    · exact ⟨[Call.newPolygonShape s.nextId], by simp [hbox, CubeFixed.alloc], rfl, rfl⟩
    · by_cases hcirc : CubeFixed.strOr obj.shape "box" = "circle"
      · exact ⟨[Call.newCircleShape s.nextId], by simp [hcirc, CubeFixed.alloc], rfl, rfl⟩
      · exact ⟨[Call.newPolygonShape s.nextId], by simp [hp, hbox, hcirc, CubeFixed.alloc], rfl, rfl⟩

/-- The shape helper returns a shape unless it is asked for a polygon without
vertices. -/
theorem createShapeCube_returns (obj : CubeFixed.AddOptions) (E : Engine) (t : Sys)
    (hshape : ¬ (CubeFixed.strOr obj.shape "box" = "polygon" ∧ obj.vertices = none)) :
    ∃ shape, (CubeFixed.createShapeCube obj E t).1 = Outcome.returned shape := by
  unfold CubeFixed.createShapeCube
  by_cases hp : CubeFixed.strOr obj.shape "box" = "polygon"
  · rcases hv : obj.vertices with _ | vertices
    · exact absurd ⟨hp, hv⟩ hshape
    · simp [hp]
  · by_cases hbox : CubeFixed.strOr obj.shape "box" = "box"
    · simp [hbox]
    · by_cases hcirc : CubeFixed.strOr obj.shape "box" = "circle" <;> simp [hp, hbox, hcirc]

/-- The definitions worldInstance.add passes to the engine whenever the shape
helper returns a shape. -/
theorem worldAdd_defs (world : World) (obj : CubeFixed.AddOptions) (E : Engine) (s : Sys)
    (hshape : ¬ (CubeFixed.strOr obj.shape "box" = "polygon" ∧ obj.vertices = none)) :
    ∃ body bd fd t,
      (CubeFixed.worldAdd world (some obj) E s).1 = Outcome.returned body
      ∧ bodyDefs (issued s (CubeFixed.worldAdd world (some obj) E s).2) = [(world, bd)]
      ∧ fixtureDefs (issued s (CubeFixed.worldAdd world (some obj) E s).2) = [(body, fd)]
      ∧ bd.angularDamping = obj.angularDamping
      ∧ bd.linearDamping = obj.linearDamping
      ∧ fd.density = CubeFixed.numOr obj.density 0
      ∧ fd.friction = CubeFixed.numOr obj.friction 0.2
      ∧ fd.restitution = CubeFixed.numOr obj.restitution 0.1
      ∧ (CubeFixed.createShapeCube obj E t).1 = Outcome.returned fd.shape := by
  obtain ⟨bd, hbd⟩ : ∃ bd : BodyDef, bd =
      { id := s.nextId
        type := CubeFixed.bodyTypeOf (CubeFixed.strOr obj.type "dynamic")
        position := ⟨CubeFixed.numOr obj.x 0, CubeFixed.numOr obj.y 0⟩
        angle := CubeFixed.numOr obj.angle 0
        allowSleep := CubeFixed.definedOrTrue obj.allowSleep
        awake := CubeFixed.definedOrTrue obj.awake
        bullet := CubeFixed.boolOr obj.bullet
        fixedRotation := CubeFixed.boolOr obj.fixedRotation
        angularDamping := obj.angularDamping
        linearDamping := obj.linearDamping } := ⟨_, rfl⟩
  obtain ⟨pre, hpre⟩ : ∃ pre : List Call, pre =
      [Call.newBodyDef s.nextId,
        Call.newVec2 ⟨s.nextId + 1, CubeFixed.numOr obj.x 0, CubeFixed.numOr obj.y 0⟩,
        Call.createBody world bd] := ⟨_, rfl⟩
  obtain ⟨t, ht⟩ : ∃ t : Sys, t =
      { nextId := s.nextId + 1 + 1 + 1,
        log := s.log ++ pre ++ [Call.newFixtureDef (s.nextId + 1 + 1)] } := ⟨_, rfl⟩
  obtain ⟨seg, hseg, hb, hf⟩ := createShapeCube_log obj E t
  obtain ⟨shape, hsh⟩ := createShapeCube_returns obj E t hshape
  obtain ⟨fd, hfd⟩ : ∃ fd : FixtureDef, fd =
      { id := s.nextId + 1 + 1
        density := CubeFixed.numOr obj.density 0
        friction := CubeFixed.numOr obj.friction 0.2
        restitution := CubeFixed.numOr obj.restitution 0.1
        isSensor := CubeFixed.boolOr obj.isSensor
        groupIndex := obj.groupIndex
        shape := shape } := ⟨_, rfl⟩
  have hw : CubeFixed.worldAdd world (some obj) E s
      = (Outcome.returned (E.createdBody (s.log ++ pre)),
          if E.hasDestroy = true then
            (((CubeFixed.createShapeCube obj E t).2.call
              (Call.createFixture (E.createdBody (s.log ++ pre)) fd)).call
                (Call.destroy (s.nextId + 1))).call (Call.destroy shape.id)
          else (CubeFixed.createShapeCube obj E t).2.call
              (Call.createFixture (E.createdBody (s.log ++ pre)) fd)) := by
    rcases hres : CubeFixed.createShapeCube obj E t with ⟨out, s4⟩
    rw [hres] at hsh
    simp only at hsh
    subst hsh
    subst hfd
    rw [ht] at hres
    subst hpre
    subst hbd
    simp only [List.append_assoc, List.singleton_append, List.cons_append, List.nil_append] at hres
    cases hE : E.hasDestroy <;>
      simp [CubeFixed.worldAdd, CubeFixed.alloc, Sys.newVec2, Sys.call, Vec2.val, hres, hE]
  have hissued : issued s (CubeFixed.worldAdd world (some obj) E s).2
      = pre ++ [Call.newFixtureDef (s.nextId + 1 + 1)] ++ seg
          ++ [Call.createFixture (E.createdBody (s.log ++ pre)) fd]
          ++ (if E.hasDestroy = true then [Call.destroy (s.nextId + 1), Call.destroy shape.id]
              else []) := by
    have hlog : (CubeFixed.createShapeCube obj E t).2.log
        = s.log ++ (pre ++ [Call.newFixtureDef (s.nextId + 1 + 1)] ++ seg) := by
      rw [hseg, ht]
      simp
    rw [hw]
    cases hE : E.hasDestroy <;> simp [issued, Sys.call, hlog]
  refine ⟨E.createdBody (s.log ++ pre), bd, fd, t, ?_, ?_, ?_, ?_, ?_, ?_, ?_, ?_, ?_⟩
  · rw [hw]
  · rw [hissued]
    cases hE : E.hasDestroy <;> simp [bodyDefs_append, hb, hpre, bodyDefs]
  · rw [hissued]
    cases hE : E.hasDestroy <;> simp [fixtureDefs_append, hf, hpre, fixtureDefs]
  · rw [hbd]
  · rw [hbd]
  · rw [hfd]
  · rw [hfd]
  · rw [hfd]
  · rw [hfd]; exact hsh

/-- C10: for every options object other than a polygon without vertices (for
which add throws), worldInstance.add of cube_fixed.js creates one body and one
fixture on it such that: a supplied non-zero friction or restitution, and any
supplied density, reach the fixture definition unchanged; friction 0 or absent
gives 0.2, restitution 0 or absent gives 0.1, density absent gives 0; the
angular and linear damping of the body definition are the supplied values, 0
included, and are not set when absent; and for a box shape the half-extents are
w/2 and h/2 for supplied non-zero w and h, and 0.5 when w or h is 0 or absent. -/
theorem add_substitutes_defaults_for_falsy (world : World) (obj : CubeFixed.AddOptions)
    (E : Engine) (s : Sys)
    (hshape : ¬ (CubeFixed.strOr obj.shape "box" = "polygon" ∧ obj.vertices = none)) :
    ∃ body bd fd,
      (CubeFixed.worldAdd world (some obj) E s).1 = Outcome.returned body
      ∧ bodyDefs (issued s (CubeFixed.worldAdd world (some obj) E s).2) = [(world, bd)]
      ∧ fixtureDefs (issued s (CubeFixed.worldAdd world (some obj) E s).2) = [(body, fd)]
      ∧ (∀ v, obj.friction = some v → v ≠ 0 → fd.friction = v)
      ∧ (∀ v, obj.restitution = some v → v ≠ 0 → fd.restitution = v)
      ∧ (∀ v, obj.density = some v → fd.density = v)
      ∧ (obj.friction = some 0 ∨ obj.friction = none → fd.friction = 0.2)
      ∧ (obj.restitution = some 0 ∨ obj.restitution = none → fd.restitution = 0.1)
      ∧ (obj.density = none → fd.density = 0)
      ∧ bd.angularDamping = obj.angularDamping
      ∧ bd.linearDamping = obj.linearDamping
      ∧ (CubeFixed.strOr obj.shape "box" = "box" →
          ∃ halfWidth halfHeight,
            fd.shape.geometry = Geometry.box halfWidth halfHeight
            ∧ (∀ v, obj.w = some v → v ≠ 0 → halfWidth = v / 2)
            ∧ (∀ v, obj.h = some v → v ≠ 0 → halfHeight = v / 2)
            ∧ (obj.w = some 0 ∨ obj.w = none → halfWidth = 0.5)
            ∧ (obj.h = some 0 ∨ obj.h = none → halfHeight = 0.5)) := by
  obtain ⟨body, bd, fd, t, hret, hbd, hfd, had, hld, hden, hfr, hre, hsh⟩ :=
    worldAdd_defs world obj E s hshape
  refine ⟨body, bd, fd, hret, hbd, hfd, ?_, ?_, ?_, ?_, ?_, ?_, had, hld, ?_⟩
  · intro v hv hne
    rw [hfr, hv]
    simp [CubeFixed.numOr, hne]
  · intro v hv hne
    rw [hre, hv]
    simp [CubeFixed.numOr, hne]
  · intro v hv
    rw [hden, hv]
    simp only [CubeFixed.numOr]
    split_ifs with h0
    · exact h0.symm
    · rfl
  · intro h
    rw [hfr]
    rcases h with h | h <;> simp [h, CubeFixed.numOr]
  · intro h
    rw [hre]
    rcases h with h | h <;> simp [h, CubeFixed.numOr]
  · intro h
    rw [hden, h]
    rfl
  · intro hbox
    have hne : ¬ ("box" = "polygon") := by decide
    refine ⟨CubeFixed.numOr obj.w 1 * 0.5, CubeFixed.numOr obj.h 1 * 0.5, ?_, ?_, ?_, ?_, ?_⟩
    · simp only [CubeFixed.createShapeCube, hbox, hne, if_false, if_true, CubeFixed.alloc] at hsh
      rw [← Outcome.returned.inj hsh]
    · intro v hv h0
      rw [hv]
      simp only [CubeFixed.numOr, h0, if_false]
      norm_num
      ring
    · intro v hv h0
      rw [hv]
      simp only [CubeFixed.numOr, h0, if_false]
      norm_num
      ring
    · intro h
      rcases h with h | h <;> rw [h] <;> norm_num [CubeFixed.numOr]
    · intro h
      rcases h with h | h <;> rw [h] <;> norm_num [CubeFixed.numOr]

/-- Witness of C10: a box with friction 0 and w 0 gets friction 0.2 and
half-width 0.5. -/
theorem add_substitutes_defaults_for_falsy_witness :
    ¬ (CubeFixed.strOr ({ friction := some 0, w := some 0 } : CubeFixed.AddOptions).shape "box"
          = "polygon"
        ∧ ({ friction := some 0, w := some 0 } : CubeFixed.AddOptions).vertices = none)
    ∧ ∃ body fd,
        fixtureDefs (issued Sys.start
          (CubeFixed.worldAdd ⟨0⟩ (some { friction := some 0, w := some 0 }) Engine.atRest
            Sys.start).2) = [(body, fd)]
        ∧ fd.friction = 0.2
        ∧ ∃ halfHeight, fd.shape.geometry = Geometry.box 0.5 halfHeight := by
  have hshape : ¬ (CubeFixed.strOr ({ friction := some 0, w := some 0 } : CubeFixed.AddOptions).shape
      "box" = "polygon"
        ∧ ({ friction := some 0, w := some 0 } : CubeFixed.AddOptions).vertices = none) := by
    simp [CubeFixed.strOr]
  obtain ⟨body, bd, fd, _, _, hfd, _, _, _, hfr, _, _, _, _, hbox⟩ :=
    add_substitutes_defaults_for_falsy ⟨0⟩ { friction := some 0, w := some 0 } Engine.atRest
      Sys.start hshape
  obtain ⟨hw, hh, hg, _, _, hw0, _⟩ := hbox rfl
  refine ⟨hshape, body, fd, hfd, hfr (Or.inl rfl), hh, ?_⟩
  rw [hg, hw0 (Or.inl rfl)]
